import Mathlib

/-!
Verification of the OBD-TOOLKIT analysis engine (src/obd_toolkit/analysis/).

The four analyzers (Correlator, FaultDetector, FuelEconomyAnalyzer,
PerformanceAnalyzer) are embedded as total functions over a rational-valued
model of the diagnostic session.  Numeric sensor values are modelled as `ℚ`
(the Python code computes with floats; all thresholds in the code are exact
decimal literals, so the exact-arithmetic model is the intended semantics).
Comparisons of a standard deviation with a threshold `t` are embedded as the
equivalent comparison of the squared deviation sum with `t^2 * (n - 1)`
(resp. `t^2 * n` for a population deviation), which keeps every definition
executable; the equivalence `sqrt v > t ↔ v > t^2` (for `t ≥ 0`) is noted at
each use.  Pearson correlation coefficients are genuinely irrational, so the
Correlator's correlation values are modelled in `ℝ` with `Real.sqrt`.

String formatting of numbers inside finding descriptions and summaries
(Python `f"{x:.1f}"` interpolation) is abstracted by `fmtQ`, an exact
deterministic rendering of the rational; no claim depends on the exact text
of those interpolations, only on constant titles, severities, categories,
confidences and on summaries being non-empty.
-/

namespace ObdToolkit

/-! ## Data model (models/session.py, models/dtc.py)

`AnalysisFinding` keeps the fields the analysis engine reads or writes; the
`data` field of the Python model is always left at its empty default by every
analyzer and is omitted.  `DTCInfo` keeps the fields the analyzers read
(`code`, `severity`; `system` is derived from `code` exactly as in dtc.py). -/

structure AnalysisFinding where
  title : String
  description : String
  severity : String
  category : String
  confidence : ℚ
  recommendations : List String
  related_pids : List String
  related_dtcs : List String
deriving DecidableEq, Repr

/-- A metric value.  `num` is a plain numeric metric; `sqrtNum q` stands for
the real number `√q` (used for standard-deviation valued metrics, kept in
symbolic form so the analyzers stay executable); `corrMap` is the Correlator's
pairwise correlation table, which the Python code stores directly into the
metrics mapping. -/
inductive MetricEntry where
  | num : ℚ → MetricEntry
  | sqrtNum : ℚ → MetricEntry
  | corrMap : List ((String × String) × ℝ) → MetricEntry

structure AnalysisResult where
  analyzer_name : String
  findings : List AnalysisFinding
  summary : String
  metrics : List (String × MetricEntry)

structure PIDSample where
  values : List (String × ℚ)
deriving DecidableEq, Repr

inductive DTCSeverity where
  | critical
  | warning
  | info
deriving DecidableEq, Repr

structure DTCInfo where
  code : String
  severity : DTCSeverity
deriving DecidableEq, Repr

structure DTCReadResult where
  stored_codes : List DTCInfo
  pending_codes : List DTCInfo
  permanent_codes : List DTCInfo
  mil_status : Bool
deriving DecidableEq, Repr

/-- The session fields the analysis engine can see.  Only `pid_samples` and
`dtc_result` are read by any analyzer; the remaining fields are carried to
state that the analyzers do not depend on them. -/
structure DiagnosticSession where
  session_id : String
  protocol : String
  notes : String
  tags : List String
  dtc_result : Option DTCReadResult
  pid_samples : List PIDSample
deriving DecidableEq, Repr

/-- dtc.py `DTCReadResult.all_codes`: stored ++ pending ++ permanent. -/
def DTCReadResult.all_codes (d : DTCReadResult) : List DTCInfo :=
  d.stored_codes ++ d.pending_codes ++ d.permanent_codes

/-- dtc.py `DTCReadResult.total_codes`. -/
def DTCReadResult.total_codes (d : DTCReadResult) : ℕ :=
  d.stored_codes.length + d.pending_codes.length + d.permanent_codes.length

/-- dtc.py `DTCInfo.system`: fixed lookup on the 3rd character of the code. -/
def dtcSystem (code : String) : String :=
  match code.data.get? 2 with
  | none => "Unknown"
  | some c =>
    if c = '1' then "Fuel and Air Metering"
    else if c = '2' then "Fuel and Air Metering (Injector Circuit)"
    else if c = '3' then "Ignition System or Misfire"
    else if c = '4' then "Auxiliary Emissions Controls"
    else if c = '5' then "Vehicle Speed Controls and Idle Control System"
    else if c = '6' then "Computer Output Circuit"
    else if c = '7' then "Transmission"
    else if c = '8' then "Transmission"
    else "Unknown System"

/-! ## Shared helpers -/

/-- Python `sample.values.get(pid)` / `pid in sample.values` on the dict. -/
def lookupPid (m : List (String × ℚ)) (pid : String) : Option ℚ :=
  List.lookup pid m

/-- The series of values of `pid` across the samples that carry it, in sample
order (the `if pid in sample.values: xs.append(...)` extraction pattern). -/
def extractValues (samples : List PIDSample) (pid : String) : List ℚ :=
  samples.filterMap (fun s => lookupPid s.values pid)

/-- The `[s.values.get(pid, 0) for s in samples]` extraction pattern. -/
def valuesWithDefault (samples : List PIDSample) (pid : String) : List ℚ :=
  samples.map (fun s => (lookupPid s.values pid).getD 0)

/-- `statistics.mean` (call sites guard against empty lists). -/
def mean (l : List ℚ) : ℚ := l.sum / (l.length : ℚ)

/-- Sum of squared deviations from the mean, `Σ (v - mean)^2`.
`statistics.stdev l > t` (sample standard deviation, `t ≥ 0`) is equivalent to
`sqDevSum l > t^2 * (len l - 1)`, and `statistics.pstdev l > t` to
`sqDevSum l > t^2 * len l`. -/
def sqDevSum (l : List ℚ) : ℚ := (l.map (fun v => (v - mean l) ^ 2)).sum

/-- Python `max` on a (guarded non-empty) list. -/
def listMax : List ℚ → ℚ
  | [] => 0
  | v :: vs => vs.foldl max v

/-- Python `min` on a (guarded non-empty) list. -/
def listMin : List ℚ → ℚ
  | [] => 0
  | v :: vs => vs.foldl min v

/-- Adjacent deltas `[l[i] - l[i-1] for i in range(1, len(l))]`. -/
def diffs (l : List ℚ) : List ℚ := List.zipWith (fun a b => b - a) l l.tail

/-- Python `round(x)` on a half-integer-free value; rounds halves to even
(banker's rounding), as `round` does on exactly representable halves. -/
def roundHalfEven (x : ℚ) : ℤ :=
  let f := ⌊x⌋
  let r := x - (f : ℚ)
  if r < 1/2 then f
  else if 1/2 < r then f + 1
  else if f % 2 = 0 then f else f + 1

/-- Python `round(v, 1)`. -/
def round1 (v : ℚ) : ℚ := (roundHalfEven (10 * v) : ℚ) / 10

/-- `len(set(round(v, 1) for v in l))`. -/
def distinctRounded1 (l : List ℚ) : ℕ := ((l.map round1).dedup).length

/-- Append a key if not yet present (dict insertion-order accumulation). -/
def insertKey (acc : List String) (k : String) : List String :=
  if k ∈ acc then acc else acc ++ [k]

/-- The keys of the `values[pid].append(...)` accumulation dict, in first
insertion order. -/
def sampleKeys (samples : List PIDSample) : List String :=
  samples.foldl (fun acc s => s.values.foldl (fun a kv => insertKey a kv.1) acc) []

/-- First-occurrence deduplication of a list of strings (dict grouping keys). -/
def distinctStrings (l : List String) : List String := l.foldl insertKey []

/-- Exact deterministic rendering of a rational, standing in for Python's
float formatting inside summaries. -/
def fmtQ (q : ℚ) : String := toString q.num ++ "/" ++ toString q.den

/-! ## FaultDetector (analysis/faults.py)

Each `create_finding(...)` call site of the source is given a named
constructor, applied to the data the source interpolates into it. -/

/-- faults.py critical-DTCs finding literal. -/
def criticalDtcFinding (codes : List String) : AnalysisFinding :=
  AnalysisFinding.mk "Critical DTCs Present"
    "Critical diagnostic codes detected. These require immediate attention to prevent damage."
    "critical" "dtc" 1
    ["Address critical codes before driving further", "Consult a professional if unsure"]
    [] codes

/-- faults.py same-system finding literal. -/
def multiSystemFinding (sys : String) (codes : List String) : AnalysisFinding :=
  AnalysisFinding.mk ("Multiple " ++ sys ++ " Codes")
    "Multiple codes in the same system. These may share a common cause."
    "warning" "dtc" 0.8
    ["Focus diagnosis on the affected system", "Check for common causes between codes"]
    [] codes

/-- faults.py recurring-faults finding literal. -/
def recurringFinding (codes : List String) : AnalysisFinding :=
  AnalysisFinding.mk "Recurring Faults"
    "Codes appear in both stored and pending. The underlying issue may not be fully resolved."
    "warning" "dtc" 0.9 [] [] codes

/-- faults.py `_analyze_dtcs`, critical-codes part. -/
def criticalDtcFindings (d : DTCReadResult) : List AnalysisFinding :=
  let critical := d.all_codes.filter (fun c => c.severity == DTCSeverity.critical)
  if critical.isEmpty then []
  else [criticalDtcFinding (critical.map (fun c => c.code))]

/-- faults.py `_analyze_dtcs`, same-system grouping part. -/
def multiSystemFindings (d : DTCReadResult) : List AnalysisFinding :=
  (distinctStrings (d.all_codes.map (fun c => dtcSystem c.code))).filterMap (fun sys =>
    let codes := d.all_codes.filter (fun c => dtcSystem c.code == sys)
    if 1 < codes.length then
      some (multiSystemFinding sys (codes.map (fun c => c.code)))
    else none)

/-- faults.py `_analyze_dtcs`, stored-and-pending recurring part. -/
def recurringFindings (d : DTCReadResult) : List AnalysisFinding :=
  let stored := d.stored_codes.map (fun c => c.code)
  let pending := d.pending_codes.map (fun c => c.code)
  let recurring := (distinctStrings stored).filter (fun c => pending.contains c)
  if recurring.isEmpty then []
  else [recurringFinding recurring]

/-- faults.py `_analyze_dtcs`. -/
def analyzeDtcs (d : DTCReadResult) : List AnalysisFinding :=
  if d.all_codes.isEmpty then []
  else criticalDtcFindings d ++ multiSystemFindings d ++ recurringFindings d

/-- faults.py coolant-rising finding literal. -/
def coolantRisingFinding : AnalysisFinding :=
  AnalysisFinding.mk "Temperature Rising Continuously"
    "Coolant temperature is continuously rising without stabilizing. Possible cooling system issue."
    "critical" "cooling" 0.8
    ["Stop and check coolant level", "Check for cooling fan operation", "Inspect for leaks"]
    ["COOLANT_TEMP"] []

/-- faults.py stuck-sensor finding literal. -/
def stuckSensorFinding (pid : String) : AnalysisFinding :=
  AnalysisFinding.mk (pid ++ " Sensor May Be Stuck")
    "Sensor shows almost no variation. Sensor may be failing or disconnected."
    "warning" "sensor" 0.6
    ["Check sensor wiring", "Test sensor response"]
    [pid] []

/-- faults.py `_analyze_sensor_anomalies`, coolant-trend part. -/
def coolantRisingFindings (samples : List PIDSample) : List AnalysisFinding :=
  let temps := extractValues samples "COOLANT_TEMP"
  if 10 < temps.length then
    let temp_changes := diffs temps
    if (temp_changes.drop (temp_changes.length - 10)).all (fun c => decide (0 ≤ c)) ∧
        100 < temps.getLastD 0 then
      [coolantRisingFinding]
    else []
  else []

/-- faults.py `_analyze_sensor_anomalies`, stuck-sensor scan over every
accumulated parameter series. -/
def stuckFindings (samples : List PIDSample) : List AnalysisFinding :=
  (sampleKeys samples).filterMap (fun pid =>
    let vals := extractValues samples pid
    if 20 < vals.length ∧ distinctRounded1 vals < 3 then
      some (stuckSensorFinding pid)
    else none)

/-- faults.py `_analyze_sensor_anomalies`. -/
def sensorAnomalyFindings (samples : List PIDSample) : List AnalysisFinding :=
  coolantRisingFindings samples ++ stuckFindings samples

/-- faults.py running-lean finding literal. -/
def runningLeanFinding : AnalysisFinding :=
  AnalysisFinding.mk "System Running Lean"
    "Long term fuel trim is high, indicating the engine is compensating for a lean condition."
    "warning" "fuel" 0.8
    ["Check for vacuum leaks", "Clean or replace MAF sensor", "Check fuel pressure",
     "Inspect intake gaskets"]
    ["LONG_FUEL_TRIM_1", "SHORT_FUEL_TRIM_1"] ["P0171", "P0174"]

/-- faults.py running-rich finding literal. -/
def runningRichFinding : AnalysisFinding :=
  AnalysisFinding.mk "System Running Rich"
    "Long term fuel trim is low, indicating the engine is compensating for a rich condition."
    "warning" "fuel" 0.8
    ["Check fuel injectors for leaks", "Check fuel pressure regulator", "Inspect O2 sensors",
     "Check for coolant temp sensor issues"]
    ["LONG_FUEL_TRIM_1", "SHORT_FUEL_TRIM_1"] ["P0172", "P0175"]

/-- faults.py erratic-fuel-trim finding literal. -/
def erraticFuelTrimFinding : AnalysisFinding :=
  AnalysisFinding.mk "Erratic Fuel Trim"
    "Short term fuel trim is highly variable. This suggests inconsistent air/fuel mixture."
    "info" "fuel" 0.6
    ["Check O2 sensor response", "Look for intermittent vacuum leaks",
     "Check for fuel delivery issues"]
    ["SHORT_FUEL_TRIM_1"] []

/-- faults.py `_analyze_fuel_system`.  `statistics.stdev(short) > 10` is
embedded as `sqDevSum short > 100 * (n - 1)`. -/
def fuelSystemFindings (samples : List PIDSample) : List AnalysisFinding :=
  let short_trim := extractValues samples "SHORT_FUEL_TRIM_1"
  let long_trim := extractValues samples "LONG_FUEL_TRIM_1"
  if short_trim.isEmpty ∧ long_trim.isEmpty then []
  else
    (if ¬ long_trim.isEmpty then
      (if 15 < mean long_trim then [runningLeanFinding]
      else if mean long_trim < -15 then [runningRichFinding]
      else [])
    else []) ++
    (if 10 < short_trim.length ∧
        100 * ((short_trim.length : ℚ) - 1) < sqDevSum short_trim then
      [erraticFuelTrimFinding]
    else [])

/-- faults.py O2-not-switching finding literal. -/
def o2NotSwitchingFinding : AnalysisFinding :=
  AnalysisFinding.mk "O2 Sensor Not Switching"
    "O2 sensor voltage is not oscillating. Sensor may be stuck or engine may not be in closed loop."
    "warning" "sensor" 0.7
    ["Verify engine is at operating temperature", "Check O2 sensor heater operation",
     "Consider O2 sensor replacement"]
    ["O2_B1S1"] ["P0133", "P0134"]

/-- faults.py O2-rich finding literal. -/
def o2RichFinding : AnalysisFinding :=
  AnalysisFinding.mk "O2 Sensor Indicates Rich"
    "O2 sensor average is rich. Engine may be running rich."
    "info" "fuel" 1 [] ["O2_B1S1"] []

/-- faults.py O2-lean finding literal. -/
def o2LeanFinding : AnalysisFinding :=
  AnalysisFinding.mk "O2 Sensor Indicates Lean"
    "O2 sensor average is lean. Engine may be running lean."
    "info" "fuel" 1 [] ["O2_B1S1"] []

/-- faults.py `_analyze_o2_sensors`.  `stdev < 0.05` is embedded as
`sqDevSum < 0.0025 * (n - 1)`. -/
def o2Findings (samples : List PIDSample) : List AnalysisFinding :=
  let o2 := extractValues samples "O2_B1S1"
  if o2.length < 20 then []
  else
    (if sqDevSum o2 < 0.0025 * ((o2.length : ℚ) - 1) then [o2NotSwitchingFinding] else []) ++
    (if 0.7 < mean o2 then [o2RichFinding]
    else if mean o2 < 0.3 then [o2LeanFinding]
    else [])

/-- faults.py vacuum-leak finding literal. -/
def vacuumLeakFinding : AnalysisFinding :=
  AnalysisFinding.mk "Vacuum Leak Likely"
    "Combination of rough idle and lean running strongly suggests a vacuum leak."
    "warning" "diagnosis" 0.85
    ["Perform smoke test for vacuum leaks", "Check intake manifold gaskets",
     "Inspect vacuum hoses", "Check PCV valve"]
    ["RPM", "LONG_FUEL_TRIM_1"] []

/-- faults.py fuel-injector finding literal. -/
def injectorIssueFinding : AnalysisFinding :=
  AnalysisFinding.mk "Fuel Injector Issue Likely"
    "Combination of rough idle and rich running suggests fuel injector problems."
    "warning" "diagnosis" 0.7
    ["Check for leaking fuel injectors", "Clean fuel injectors",
     "Check fuel pressure regulator"]
    ["RPM", "LONG_FUEL_TRIM_1"] []

/-- faults.py `_correlate_symptoms`.  The `overheating` flag is computed by
the source but feeds no finding, and `poor_throttle_response` is never set;
both are omitted.  `stdev(rpm) > 50` is embedded as
`sqDevSum > 2500 * (n - 1)`. -/
def symptomFindings (samples : List PIDSample) : List AnalysisFinding :=
  let rpm_values := (extractValues samples "RPM").filter (fun v => decide (v < 1000))
  let rough_idle := 5 < rpm_values.length ∧
    2500 * ((rpm_values.length : ℚ) - 1) < sqDevSum rpm_values
  let long_trim := valuesWithDefault samples "LONG_FUEL_TRIM_1"
  let lean_running := ¬ long_trim.isEmpty ∧ 10 < mean long_trim
  let rich_running := ¬ long_trim.isEmpty ∧ mean long_trim < -10
  (if rough_idle ∧ lean_running then [vacuumLeakFinding] else []) ++
  (if rough_idle ∧ rich_running then [injectorIssueFinding] else [])

/-- faults.py `analyze` summary generation. -/
def faultSummary (findings : List AnalysisFinding) : String :=
  let critical_count := (findings.filter (fun f => f.severity == "critical")).length
  let warning_count := (findings.filter (fun f => f.severity == "warning")).length
  if 0 < critical_count then
    "CRITICAL: " ++ toString critical_count ++
      " critical issue(s) detected requiring immediate attention."
  else if 0 < warning_count then
    "Found " ++ toString warning_count ++ " potential issue(s) that should be investigated."
  else
    "No significant faults detected. Vehicle appears to be operating normally."

/-- faults.py `FaultDetector.analyze`, as a function of the session fields it
reads. -/
def faultsCore (samples : List PIDSample) (dtc : Option DTCReadResult) : AnalysisResult :=
  let dtcPart := match dtc with
    | some d => analyzeDtcs d
    | none => []
  let pidPart := if samples.isEmpty then []
    else sensorAnomalyFindings samples ++ fuelSystemFindings samples ++
      o2Findings samples ++ symptomFindings samples
  let findings := dtcPart ++ pidPart
  let metrics := match dtc with
    | some d => [("dtc_count", MetricEntry.num (d.total_codes : ℚ))]
    | none => []
  AnalysisResult.mk "Fault Detection" findings (faultSummary findings) metrics

/-- faults.py `FaultDetector.analyze`. -/
def faultsAnalyze (s : DiagnosticSession) : AnalysisResult :=
  faultsCore s.pid_samples s.dtc_result

/-! ## FuelEconomyAnalyzer (analysis/fuel.py) -/

/-- fuel.py `_calculate_mpg_series`.  The source assigns `mpg` twice; the
first assignment `(speed * 7.718) / maf` is immediately overwritten, so only
the second, km/h-aware formula is embedded. -/
def calculate_mpg_series (maf_values speed_values : List ℚ) : List ℚ :=
  (List.range (min maf_values.length speed_values.length)).filterMap (fun i =>
    let maf := maf_values.getD i 0
    let speed := speed_values.getD i 0
    if speed < 5 ∨ maf < 0.5 then none
    else
      let mpg := speed * 0.621371 * 7.718 / maf
      if 1 < mpg ∧ mpg < 100 then some mpg else none)

/-- fuel.py poor-economy finding literal. -/
def poorEconomyFinding : AnalysisFinding :=
  AnalysisFinding.mk "Poor Fuel Economy"
    "Average fuel economy is below typical values. This may indicate engine or driving efficiency issues."
    "warning" "fuel" 0.7
    ["Check for dragging brakes", "Verify tire pressure", "Check air filter",
     "Consider driving habit adjustments", "Check for engine issues (misfires, O2 sensors)"]
    ["MAF", "SPEED"] []

/-- fuel.py inconsistent-economy finding literal. -/
def inconsistentEconomyFinding : AnalysisFinding :=
  AnalysisFinding.mk "Inconsistent Fuel Economy"
    "Fuel economy varies significantly. This suggests varied driving conditions or engine inconsistency."
    "info" "fuel" 0.6 [] ["MAF", "SPEED"] []

/-- fuel.py high-airflow finding literal. -/
def highAirflowFinding : AnalysisFinding :=
  AnalysisFinding.mk "High Airflow Detected"
    "Maximum MAF reading is high. Verify this matches expected engine performance."
    "info" "fuel" 1 [] ["MAF"] []

/-- fuel.py high-idle-airflow finding literal. -/
def highIdleAirflowFinding : AnalysisFinding :=
  AnalysisFinding.mk "High Idle Airflow"
    "MAF at idle is higher than expected. This may indicate a vacuum leak or MAF sensor issue."
    "warning" "fuel" 0.6
    ["Check for vacuum leaks", "Clean MAF sensor", "Check intake system for leaks"]
    ["MAF", "RPM"] []

/-- fuel.py high-idle-fuel finding literal. -/
def highIdleFuelFinding : AnalysisFinding :=
  AnalysisFinding.mk "High Idle Fuel Consumption"
    "Estimated idle fuel consumption is higher than typical for most vehicles."
    "info" "fuel" 0.5
    ["Check for accessories consuming power", "Verify engine is at operating temperature",
     "Check for vacuum leaks"]
    ["MAF", "RPM"] []

/-- fuel.py high-RPM-pattern finding literal. -/
def highRpmPatternFinding : AnalysisFinding :=
  AnalysisFinding.mk "High RPM Driving Pattern"
    "Vehicle is being driven at higher RPMs than necessary for the speed. This reduces fuel economy."
    "info" "driving" 0.6
    ["Shift to higher gear sooner", "Use eco/economy mode if available",
     "Accelerate more gradually"]
    ["SPEED", "RPM"] []

/-- fuel.py aggressive-acceleration finding literal. -/
def aggressiveAccelFinding : AnalysisFinding :=
  AnalysisFinding.mk "Aggressive Acceleration Pattern"
    "Detected frequent rapid acceleration. This significantly impacts fuel economy."
    "info" "driving" 0.7
    ["Accelerate more gradually", "Anticipate traffic to avoid sudden acceleration",
     "Use cruise control when possible"]
    ["SPEED"] []

/-- fuel.py excessive-idling finding literal. -/
def excessiveIdlingFinding : AnalysisFinding :=
  AnalysisFinding.mk "Excessive Idling Detected"
    "Vehicle was stationary for a large share of the monitoring period. Idling wastes fuel."
    "info" "driving" 0.8
    ["Turn off engine during extended stops", "Use auto start-stop if equipped",
     "Plan routes to minimize stop-and-go traffic"]
    ["SPEED"] []

/-- The single info finding returned by fuel.py and performance.py when the
session has no samples. -/
def noDataFinding : AnalysisFinding :=
  AnalysisFinding.mk "No Data" "No PID samples available for analysis"
    "info" "general" 1 [] [] []

/-- fuel.py `_analyze_mpg_patterns` (its `speed_values` parameter is unused
by the source and dropped here).  `stdev > 10` is embedded as
`sqDevSum > 100 * (n - 1)`; the source's `len > 1` guard for the stdev is
subsumed by the `len ≥ 5` entry guard. -/
def mpgPatternFindings (mpg_values : List ℚ) : List AnalysisFinding :=
  if mpg_values.length < 5 then []
  else
    (if mean mpg_values < 15 then [poorEconomyFinding] else []) ++
    (if 100 * ((mpg_values.length : ℚ) - 1) < sqDevSum mpg_values then
      [inconsistentEconomyFinding]
    else [])

/-- fuel.py `_analyze_maf_patterns`: the MAF readings at index-aligned idle
(RPM < 1000) positions. -/
def idleMafSeries (maf_values rpm_values : List ℚ) : List ℚ :=
  (List.range rpm_values.length).filterMap (fun i =>
    if rpm_values.getD i 0 < 1000 then some (maf_values.getD i 0) else none)

/-- fuel.py `_analyze_maf_patterns`. -/
def mafPatternFindings (maf_values rpm_values : List ℚ) : List AnalysisFinding :=
  if maf_values.length < 5 then []
  else
    (if 200 < listMax maf_values then [highAirflowFinding] else []) ++
    (if ¬ rpm_values.isEmpty ∧ rpm_values.length = maf_values.length then
      if ¬ (idleMafSeries maf_values rpm_values).isEmpty ∧
          10 < mean (idleMafSeries maf_values rpm_values) then
        [highIdleAirflowFinding]
      else []
    else [])

/-- fuel.py `_analyze_idle_fuel`. -/
def idleFuelFindings (maf_values rpm_values : List ℚ) : List AnalysisFinding :=
  let idle_maf := (List.range rpm_values.length).filterMap (fun i =>
    if i < maf_values.length ∧ rpm_values.getD i 0 < 1000 then
      some (maf_values.getD i 0)
    else none)
  if idle_maf.length < 3 then []
  else
    let idle_fuel_lph := mean idle_maf * 3600 / (14.7 * 750)
    if 2 < idle_fuel_lph then [highIdleFuelFinding] else []

/-- fuel.py `_analyze_driving_efficiency`. -/
def drivingEfficiencyFindings (speed_values rpm_values : List ℚ) : List AnalysisFinding :=
  if speed_values.length < 10 ∨ rpm_values.length < 10 then []
  else
    let ratios := (List.range (min speed_values.length rpm_values.length)).filterMap (fun i =>
      if 500 < rpm_values.getD i 0 ∧ 20 < speed_values.getD i 0 then
        some (speed_values.getD i 0 / rpm_values.getD i 0 * 1000)
      else none)
    if ratios.isEmpty then []
    else if mean ratios < 20 then [highRpmPatternFinding]
    else []

/-- fuel.py `_analyze_acceleration`.  `count > len * 0.2` is embedded as
`len < 5 * count`, and `count > len * 0.3` as `10 * count > 3 * len` over ℕ,
both exact. -/
def accelerationFindings (speed_values : List ℚ) : List AnalysisFinding :=
  if speed_values.length < 10 then []
  else
    let accelerations := diffs speed_values
    if accelerations.isEmpty then []
    else
      (let aggressive := accelerations.filter (fun a => decide (10 < a))
       if accelerations.length < 5 * aggressive.length then [aggressiveAccelFinding]
      else []) ++
      (let idle_count := (speed_values.filter (fun s => decide (s < 5))).length
       if 3 * speed_values.length < 10 * idle_count then [excessiveIdlingFinding]
      else [])

/-- fuel.py `analyze` summary generation (reached when samples exist). -/
def fuelSummary (have_mpg : Bool) (avg_mpg : ℚ) : String :=
  if have_mpg then
    "Average fuel economy: " ++ fmtQ avg_mpg ++ " MPG. " ++
      (if avg_mpg < 15 then "Below average efficiency - see recommendations."
       else if 30 < avg_mpg then "Good fuel efficiency."
       else "Moderate fuel efficiency.")
  else
    "Fuel economy could not be calculated. Ensure MAF and SPEED data is available."

/-- fuel.py `FuelEconomyAnalyzer.analyze`, as a function of the samples (the
only session field it reads).  The source also extracts `load_values` but
never uses them. -/
def fuelCore (samples : List PIDSample) : AnalysisResult :=
  if samples.isEmpty then
    AnalysisResult.mk "Fuel Economy Analysis" [noDataFinding]
      "Insufficient data for fuel analysis" []
  else
    let maf_values := extractValues samples "MAF"
    let speed_values := extractValues samples "SPEED"
    let rpm_values := extractValues samples "RPM"
    let mpg_samples := calculate_mpg_series maf_values speed_values
    let have_mpg := ¬ maf_values.isEmpty ∧ ¬ speed_values.isEmpty ∧ ¬ mpg_samples.isEmpty
    let findings :=
      (if have_mpg then mpgPatternFindings mpg_samples else []) ++
      (if ¬ maf_values.isEmpty then mafPatternFindings maf_values rpm_values else []) ++
      (if ¬ maf_values.isEmpty ∧ ¬ rpm_values.isEmpty then
        idleFuelFindings maf_values rpm_values else []) ++
      (if ¬ speed_values.isEmpty ∧ ¬ rpm_values.isEmpty then
        drivingEfficiencyFindings speed_values rpm_values else []) ++
      (if ¬ speed_values.isEmpty then accelerationFindings speed_values else [])
    let metrics :=
      (if have_mpg then
        [("average_mpg", MetricEntry.num (mean mpg_samples)),
         ("max_mpg", MetricEntry.num (listMax mpg_samples)),
         ("min_mpg", MetricEntry.num (listMin mpg_samples))]
      else []) ++
      (if ¬ maf_values.isEmpty then [("avg_maf", MetricEntry.num (mean maf_values))] else [])
    AnalysisResult.mk "Fuel Economy Analysis" findings
      (fuelSummary (decide have_mpg) (mean mpg_samples)) metrics

/-- fuel.py `FuelEconomyAnalyzer.analyze`. -/
def fuelAnalyze (s : DiagnosticSession) : AnalysisResult :=
  fuelCore s.pid_samples

/-! ## PerformanceAnalyzer (analysis/performance.py) -/

/-- performance.py rough-idle finding literal. -/
def roughIdleFinding : AnalysisFinding :=
  AnalysisFinding.mk "Rough Idle Detected"
    "RPM variance at idle is high. This may indicate misfires, vacuum leaks, or fuel system issues."
    "warning" "engine" 0.8
    ["Check for vacuum leaks", "Inspect spark plugs and ignition coils",
     "Check fuel injectors", "Clean throttle body"]
    ["RPM"] []

/-- performance.py RPM-fluctuations finding literal. -/
def rpmFluctuationsFinding : AnalysisFinding :=
  AnalysisFinding.mk "RPM Fluctuations Detected"
    "Detected significant RPM drops. This pattern may indicate cylinder misfires."
    "warning" "engine" 0.7
    ["Check for misfire codes (P030x)", "Inspect ignition system", "Check compression"]
    ["RPM"] ["P0300", "P0301", "P0302", "P0303", "P0304"]

/-- performance.py high-idle-load finding literal. -/
def highIdleLoadFinding : AnalysisFinding :=
  AnalysisFinding.mk "High Idle Load"
    "Engine load is consistently high even at idle. This may indicate accessory loads or engine efficiency issues."
    "info" "engine" 0.6
    ["Check AC compressor operation", "Check alternator output", "Inspect for dragging brakes"]
    ["ENGINE_LOAD"] []

/-- performance.py load-fluctuations finding literal. -/
def loadFluctuationsFinding : AnalysisFinding :=
  AnalysisFinding.mk "Load Fluctuations"
    "Detected sudden load changes. This could indicate transmission issues or engine hesitation."
    "info" "engine" 0.5 [] ["ENGINE_LOAD"] []

/-- performance.py throttle-lag finding literal. -/
def throttleLagFinding : AnalysisFinding :=
  AnalysisFinding.mk "Throttle Response Lag"
    "Engine shows delayed response to throttle input. This may indicate fuel delivery issues or throttle body problems."
    "warning" "engine" 0.6
    ["Clean throttle body", "Check fuel pressure", "Inspect throttle position sensor",
     "Check MAF sensor"]
    ["THROTTLE_POS", "RPM"] []

/-- performance.py elevated-coolant finding literal. -/
def elevatedCoolantFinding : AnalysisFinding :=
  AnalysisFinding.mk "Elevated Coolant Temperature"
    "Coolant is above normal operating range. Risk of engine damage if this continues."
    "critical" "cooling" 0.9
    ["Check coolant level", "Inspect radiator for blockage", "Check thermostat operation",
     "Inspect water pump", "Check cooling fans"]
    ["COOLANT_TEMP"] []

/-- performance.py warm-coolant finding literal. -/
def warmCoolantFinding : AnalysisFinding :=
  AnalysisFinding.mk "Warm Coolant Temperature"
    "Coolant is warm. Monitor closely."
    "warning" "cooling" 0.7 [] ["COOLANT_TEMP"] []

/-- performance.py not-reaching-temperature finding literal. -/
def notReachingTempFinding : AnalysisFinding :=
  AnalysisFinding.mk "Engine Not Reaching Temperature"
    "Coolant temperature is not reaching normal operating range. Thermostat may be stuck open."
    "warning" "cooling" 0.7
    ["Check thermostat operation", "Verify coolant temp sensor accuracy"]
    ["COOLANT_TEMP"] []

/-- performance.py misfire-codes finding literal. -/
def misfireCodesFinding (codes : List String) : AnalysisFinding :=
  AnalysisFinding.mk "Misfire Codes Present"
    "Active misfire codes detected."
    "critical" "engine" 1
    ["Address misfire codes before other analysis", "Check ignition system",
     "Inspect fuel injectors"]
    [] codes

/-- performance.py `_analyze_rpm_stability`.  `stdev(idle) > 100` is embedded
as `sqDevSum > 10000 * (n - 1)`.  The source's unused `std_rpm` and
`max_change` locals are omitted. -/
def rpmStabilityFindings (rpm_values : List ℚ) : List AnalysisFinding :=
  if rpm_values.length < 5 then []
  else
    let rpm_changes := (diffs rpm_values).map (fun c => |c|)
    let idle_samples := rpm_values.filter (fun r => decide (r < 1200))
    (if 3 < idle_samples.length ∧
        10000 * ((idle_samples.length : ℚ) - 1) < sqDevSum idle_samples then
      [roughIdleFinding]
    else []) ++
    (let large_drops := rpm_changes.filter (fun c => decide (300 < c))
     if 2 < large_drops.length then [rpmFluctuationsFinding] else [])

/-- performance.py `_analyze_load_patterns`. -/
def loadPatternFindings (load_values : List ℚ) : List AnalysisFinding :=
  if load_values.length < 5 then []
  else
    (if 40 < mean load_values ∧ listMax load_values = listMin load_values then
      [highIdleLoadFinding]
    else []) ++
    (let load_changes := (diffs load_values).map (fun c => |c|)
     let sudden_spikes := load_changes.filter (fun c => decide (30 < c))
     if 3 < sudden_spikes.length then [loadFluctuationsFinding] else [])

/-- performance.py `_analyze_throttle_response`: the indices of samples whose
throttle reading increased by more than 10 over the previous sample. -/
def throttleIncreases (throttle_values : List ℚ) : List ℕ :=
  (List.range throttle_values.length).filter (fun i =>
    decide (1 ≤ i ∧ 10 < throttle_values.getD i 0 - throttle_values.getD (i - 1) 0))

/-- performance.py `_analyze_throttle_response`: the number of throttle
increases whose RPM response is slow.  Note the guard is `idx + 3 < len(rpm)`
in the source, not `idx + 2 ≤ len(rpm) - 1`. -/
def slowResponseCount (throttle_values rpm_values : List ℚ) : ℕ :=
  ((throttleIncreases throttle_values).filter (fun idx =>
    decide (idx + 3 < rpm_values.length ∧
      rpm_values.getD (idx + 2) 0 - rpm_values.getD idx 0 < 100))).length

/-- performance.py `_analyze_throttle_response`. -/
def throttleResponseFindings (throttle_values rpm_values : List ℚ) : List AnalysisFinding :=
  if throttle_values.length < 10 ∨ rpm_values.length < 10 then []
  else if 2 < slowResponseCount throttle_values rpm_values then [throttleLagFinding]
  else []

/-- performance.py `_analyze_coolant_temp`. -/
def coolantTempFindings (coolant_values : List ℚ) : List AnalysisFinding :=
  if coolant_values.isEmpty then []
  else
    (if 110 < listMax coolant_values then [elevatedCoolantFinding]
    else if 100 < listMax coolant_values then [warmCoolantFinding]
    else []) ++
    (if listMax coolant_values < 75 ∧ 20 < coolant_values.length then
      [notReachingTempFinding]
    else [])

/-- performance.py `_analyze_performance_dtcs`. -/
def misfireDtcFindings (d : DTCReadResult) : List AnalysisFinding :=
  let misfire := d.all_codes.filter (fun c => c.code.startsWith "P030")
  if misfire.isEmpty then []
  else [misfireCodesFinding (misfire.map (fun c => c.code))]

/-- performance.py `analyze` summary generation. -/
def perfSummary (findings : List AnalysisFinding) : String :=
  let issue_count :=
    (findings.filter (fun f => f.severity == "critical" || f.severity == "warning")).length
  if issue_count = 0 then
    "No performance issues detected. Engine appears to be running normally."
  else if issue_count = 1 then
    "1 potential performance issue detected. See findings for details."
  else
    toString issue_count ++ " potential performance issues detected. Review findings carefully."

/-- performance.py `PerformanceAnalyzer.analyze`, as a function of the session
fields it reads. -/
def performanceCore (samples : List PIDSample) (dtc : Option DTCReadResult) : AnalysisResult :=
  if samples.isEmpty then
    AnalysisResult.mk "Performance Analysis" [noDataFinding]
      "Insufficient data for performance analysis" []
  else
    let rpm_values := extractValues samples "RPM"
    let load_values := extractValues samples "ENGINE_LOAD"
    let throttle_values := extractValues samples "THROTTLE_POS"
    let coolant_values := extractValues samples "COOLANT_TEMP"
    let findings :=
      (if ¬ rpm_values.isEmpty then rpmStabilityFindings rpm_values else []) ++
      (if ¬ load_values.isEmpty then loadPatternFindings load_values else []) ++
      (if ¬ throttle_values.isEmpty ∧ ¬ rpm_values.isEmpty then
        throttleResponseFindings throttle_values rpm_values else []) ++
      (if ¬ coolant_values.isEmpty then coolantTempFindings coolant_values else []) ++
      (match dtc with
       | some d => misfireDtcFindings d
       | none => [])
    let metrics :=
      (if ¬ rpm_values.isEmpty then
        [("rpm_avg", MetricEntry.num (mean rpm_values)),
         ("rpm_max", MetricEntry.num (listMax rpm_values)),
         ("rpm_std",
          if 1 < rpm_values.length then
            MetricEntry.sqrtNum (sqDevSum rpm_values / ((rpm_values.length : ℚ) - 1))
          else MetricEntry.num 0)]
      else []) ++
      (if ¬ load_values.isEmpty then
        [("load_avg", MetricEntry.num (mean load_values)),
         ("load_max", MetricEntry.num (listMax load_values))]
      else []) ++
      (if ¬ coolant_values.isEmpty then
        [("coolant_avg", MetricEntry.num (mean coolant_values)),
         ("coolant_max", MetricEntry.num (listMax coolant_values))]
      else [])
    AnalysisResult.mk "Performance Analysis" findings (perfSummary findings) metrics

/-- performance.py `PerformanceAnalyzer.analyze`. -/
def performanceAnalyze (s : DiagnosticSession) : AnalysisResult :=
  performanceCore s.pid_samples s.dtc_result

/-! ## Correlator (analysis/correlator.py) -/

/-- correlator.py insufficient-samples finding literal. -/
def insufficientDataFinding : AnalysisFinding :=
  AnalysisFinding.mk "Insufficient Data"
    "Need at least 10 samples for correlation analysis" "info" "general" 1 [] [] []

/-- correlator.py insufficient-PIDs finding literal. -/
def insufficientPidsFinding : AnalysisFinding :=
  AnalysisFinding.mk "Insufficient PIDs"
    "Need at least 2 different PIDs for correlation analysis" "info" "general" 1 [] [] []

/-- correlator.py low-correlation finding literal (severity is computed at
the call site: warning when the coefficient is negative, info otherwise). -/
def lowCorrelationFinding (pid1 pid2 severity : String) : AnalysisFinding :=
  AnalysisFinding.mk ("Unexpected Low Correlation: " ++ pid1 ++ "-" ++ pid2)
    "Expected positive correlation was not observed."
    severity "correlation" 0.6 [] [pid1, pid2] []

/-- correlator.py negative RPM-speed finding literal. -/
def negativeRpmSpeedFinding : AnalysisFinding :=
  AnalysisFinding.mk "Negative RPM-Speed Correlation"
    "RPM and Speed are negatively correlated, which is unusual. May indicate transmission issues or data collection during unusual conditions."
    "info" "correlation" 0.5 [] ["RPM", "SPEED"] []

/-- correlator.py data-anomalies finding literal. -/
def dataAnomaliesFinding (pid : String) : AnalysisFinding :=
  AnalysisFinding.mk ("Data Anomalies in " ++ pid)
    "Found outlier readings. This may indicate sensor issues or unusual conditions."
    "info" "anomaly" 0.5 [] [pid] []

/-- correlator.py sudden-changes finding literal. -/
def suddenChangesFinding (pid : String) : AnalysisFinding :=
  AnalysisFinding.mk ("Sudden Changes in " ++ pid)
    "Detected sudden value changes. This may indicate intermittent sensor issues."
    "warning" "anomaly" 0.6 [] [pid] []

/-- correlator.py trend finding literal (severity computed at the call
site). -/
def trendingFinding (pid severity : String) : AnalysisFinding :=
  AnalysisFinding.mk ("Trending " ++ pid)
    "The series shows a consistent trend. This may indicate a developing issue."
    severity "trend" 0.5 [] [pid] []

/-- correlator.py `_extract_series`: per-PID series in dict insertion order,
keeping only series with at least 10 points. -/
def extractSeries (samples : List PIDSample) : List (String × List ℚ) :=
  (sampleKeys samples).filterMap (fun pid =>
    let vals := extractValues samples pid
    if 10 ≤ vals.length then some (pid, vals) else none)

/-- The unordered pairs `(pids[i], pids[j])`, `i < j`, in the double-loop
order of `_calculate_correlations`. -/
def pairsOf {α : Type} : List α → List (α × α)
  | [] => []
  | x :: xs => xs.map (fun y => (x, y)) ++ pairsOf xs

/-- Series lookup (call sites only use keys present in the list). -/
def seriesGet (series : List (String × List ℚ)) (pid : String) : List ℚ :=
  (List.lookup pid series).getD []

/-- The numerator `Σ (x[i] - mean x) * (y[i] - mean y)` of the Pearson
coefficient (for the aligned, equal-length call sites). -/
def covSum (x y : List ℚ) : ℚ :=
  (List.zipWith (fun a b => (a - mean x) * (b - mean y)) x y).sum

/-- correlator.py `_pearson_correlation`.  The source tests
`denom_x == 0 or denom_y == 0` with `denom_x = sqrt (Σ (xi - mean)^2)`;
over exact arithmetic `sqrt v = 0 ↔ v = 0`, so the guard is embedded on the
squared sums, keeping it decidable. -/
noncomputable def pearson_correlation (x y : List ℚ) : Option ℝ :=
  if x.length ≠ y.length ∨ x.length < 2 then none
  else if sqDevSum x = 0 ∨ sqDevSum y = 0 then none
  else some ((covSum x y : ℝ) /
    (Real.sqrt ((sqDevSum x : ℚ) : ℝ) * Real.sqrt ((sqDevSum y : ℚ) : ℝ)))

/-- correlator.py `_calculate_correlations`. -/
noncomputable def calculateCorrelations (series : List (String × List ℚ)) :
    List ((String × String) × ℝ) :=
  (pairsOf (series.map (fun kv => kv.1))).filterMap (fun pq =>
    let values1 := seriesGet series pq.1
    let values2 := seriesGet series pq.2
    let min_len := min values1.length values2.length
    if min_len < 10 then none
    else (pearson_correlation (values1.take min_len) (values2.take min_len)).map
      (fun corr => ((pq.1, pq.2), corr)))

/-- The `key = (pid1, pid2) if (pid1, pid2) in correlations else (pid2, pid1);
if key in correlations` lookup pattern of `_analyze_expected_correlations`. -/
def lookupCorr (correlations : List ((String × String) × ℝ)) (a b : String) : Option ℝ :=
  match List.lookup (a, b) correlations with
  | some c => some c
  | none => List.lookup (b, a) correlations

/-- The `expected_positive` rule table of `_analyze_expected_correlations`. -/
def expectedPositive : List ((String × String) × ℚ) :=
  [(("RPM", "MAF"), 0.5), (("THROTTLE_POS", "ENGINE_LOAD"), 0.4), (("SPEED", "RPM"), 0.3)]

/-- correlator.py `_analyze_expected_correlations`. -/
noncomputable def expectedCorrelationFindings
    (correlations : List ((String × String) × ℝ)) : List AnalysisFinding :=
  (expectedPositive.filterMap (fun rule =>
    match lookupCorr correlations rule.1.1 rule.1.2 with
    | none => none
    | some actual_corr =>
      if actual_corr < ((rule.2 : ℚ) : ℝ) then
        some (lowCorrelationFinding rule.1.1 rule.1.2
          (if actual_corr < 0 then "warning" else "info"))
      else none)) ++
  (match lookupCorr correlations "RPM" "SPEED" with
   | some c =>
     if c < -0.3 then [negativeRpmSpeedFinding] else []
   | none => [])

/-- correlator.py `_detect_anomalies`.  `abs (v - mean) > 3 * stdev` is
embedded as `(v - mean)^2 * (n - 1) > 9 * sqDevSum` (both sides of the source
comparison are non-negative, so squaring is an equivalence), and the
`std == 0` guard as `sqDevSum = 0`. -/
def anomalyFindings (series : List (String × List ℚ)) : List AnalysisFinding :=
  series.flatMap (fun kv =>
    let pid := kv.1
    let values := kv.2
    if values.length < 20 then []
    else if sqDevSum values = 0 then []
    else
      let n1 : ℚ := (values.length : ℚ) - 1
      let outliers := values.filter (fun v =>
        decide (9 * sqDevSum values < (v - mean values) ^ 2 * n1))
      (if values.length < 20 * outliers.length then [dataAnomaliesFinding pid]
      else []) ++
      (let spikes := (diffs values).filter (fun d =>
        decide (9 * sqDevSum values < d ^ 2 * n1))
       if 5 < spikes.length then [suddenChangesFinding pid] else []))

/-- correlator.py `_analyze_trends` (ordinary least squares on the 0-based
index). -/
def trendFindings (series : List (String × List ℚ)) : List AnalysisFinding :=
  series.flatMap (fun kv =>
    let values := kv.2
    if values.length < 20 then []
    else
      let n : ℚ := (values.length : ℚ)
      let x_mean := (n - 1) / 2
      let y_mean := mean values
      let numerator := ((List.range values.length).map (fun (i : ℕ) =>
        ((i : ℚ) - x_mean) * (values.getD i 0 - y_mean))).sum
      let denominator := ((List.range values.length).map (fun (i : ℕ) =>
        ((i : ℚ) - x_mean) ^ 2)).sum
      if denominator = 0 then []
      else
        let slope := numerator / denominator
        if y_mean = 0 then []
        else
          let relative_slope := slope / y_mean * 100
          if 1 < |relative_slope| then
            [trendingFinding kv.1 (if |relative_slope| < 2 then "info" else "warning")]
          else [])

/-- correlator.py `Correlator.analyze`, as a function of the samples (the
only session field it reads).  The `not session.pid_samples or len < 10`
guard is embedded as `len < 10`, which it is equivalent to. -/
noncomputable def correlatorCore (samples : List PIDSample) : AnalysisResult :=
  if samples.length < 10 then
    AnalysisResult.mk "Statistical Correlation Analysis" [insufficientDataFinding]
      "Insufficient data for correlation analysis" []
  else
    let series := extractSeries samples
    if series.length < 2 then
      AnalysisResult.mk "Statistical Correlation Analysis" [insufficientPidsFinding]
        "Insufficient PID data for correlation" []
    else
      let correlations := calculateCorrelations series
      let findings := expectedCorrelationFindings correlations ++
        anomalyFindings series ++ trendFindings series
      let anomaly_count := (findings.filter (fun f =>
        f.severity == "critical" || f.severity == "warning")).length
      let summary := if 0 < anomaly_count then
          "Found " ++ toString anomaly_count ++ " anomaly(s) in sensor data correlations."
        else "Sensor data correlations appear normal."
      AnalysisResult.mk "Statistical Correlation Analysis" findings summary
        [("correlations", MetricEntry.corrMap correlations)]

/-- correlator.py `Correlator.analyze`. -/
noncomputable def correlatorAnalyze (s : DiagnosticSession) : AnalysisResult :=
  correlatorCore s.pid_samples

/-! ## Claim-side definitions

These two definitions follow the wording of the specification/claims, for
comparison against the source-derived definitions above. -/

/-- The slow-response count as claim C2 words it: a throttle increase at `i`
counts when index `i + 2` is within the RPM series and
`RPM[i+2] - RPM[i] < 100`.  (The source instead guards on
`i + 3 < len(rpm)`.) -/
def claimSlowResponseCount (throttle_values rpm_values : List ℚ) : ℕ :=
  ((throttleIncreases throttle_values).filter (fun idx =>
    decide (idx + 2 < rpm_values.length ∧
      rpm_values.getD (idx + 2) 0 - rpm_values.getD idx 0 < 100))).length

/-- The MPG series as the specification words it: per index of the aligned
(truncated-to-shorter) series, an index with speed ≥ 5 km/h and MAF ≥ 0.5 g/s
yields `mpg = speed * 0.621371 * 7.718 / maf`, and the value is kept if and
only if `1 < mpg < 100`. -/
def mpgSeriesSpec (maf_values speed_values : List ℚ) : List ℚ :=
  (List.range (min maf_values.length speed_values.length)).filterMap (fun i =>
    let maf := maf_values.getD i 0
    let speed := speed_values.getD i 0
    let mpg := speed * 0.621371 * 7.718 / maf
    if 5 ≤ speed ∧ 0.5 ≤ maf ∧ 1 < mpg ∧ mpg < 100 then some mpg else none)

/-! ## Concrete sessions used by counterexamples and witnesses -/

/-- A session with zero PID samples and no trouble-code read. -/
def emptySession : DiagnosticSession :=
  DiagnosticSession.mk "s0" "Unknown" "" [] none []

/-- The invariant claimed for every emitted finding: a known severity and a
confidence within [0, 1]. -/
def validFinding (f : AnalysisFinding) : Prop :=
  (f.severity = "critical" ∨ f.severity = "warning" ∨ f.severity = "info") ∧
  0 ≤ f.confidence ∧ f.confidence ≤ 1

/-- Ten samples carrying THROTTLE_POS and a constant RPM; throttle jumps of
more than 10 occur at indices 1, 2 and 7. -/
def sessC2 : DiagnosticSession :=
  DiagnosticSession.mk "s2" "Unknown" "" [] none
    (([0, 20, 40, 0, 0, 0, 0, 20, 0, 0] : List ℚ).map (fun t =>
      PIDSample.mk [("THROTTLE_POS", t), ("RPM", 800)]))

/-- Ten samples with throttle jumps at indices 1, 2 and 4, all of which the
source counts as slow responses (three in total). -/
def sessC2w : DiagnosticSession :=
  DiagnosticSession.mk "s2w" "Unknown" "" [] none
    (([0, 20, 40, 0, 20, 0, 0, 0, 0, 0] : List ℚ).map (fun t =>
      PIDSample.mk [("THROTTLE_POS", t), ("RPM", 800)]))

/-- Exactly ten SHORT_FUEL_TRIM_1 values, population standard deviation 15. -/
def sessC3 : DiagnosticSession :=
  DiagnosticSession.mk "s3" "Unknown" "" [] none
    (([0, 0, 0, 0, 0, 30, 30, 30, 30, 30] : List ℚ).map (fun v =>
      PIDSample.mk [("SHORT_FUEL_TRIM_1", v)]))

/-- Eleven SHORT_FUEL_TRIM_1 values with sample variance above 100. -/
def sessC3w : DiagnosticSession :=
  DiagnosticSession.mk "s3w" "Unknown" "" [] none
    (([0, 0, 0, 0, 0, 0, 30, 30, 30, 30, 30] : List ℚ).map (fun v =>
      PIDSample.mk [("SHORT_FUEL_TRIM_1", v)]))

/-- Four samples, all idle (RPM 800) with MAF 50 g/s. -/
def sessC4 : DiagnosticSession :=
  DiagnosticSession.mk "s4" "Unknown" "" [] none
    (List.replicate 4 (PIDSample.mk [("MAF", 50), ("RPM", 800)]))

/-- Five samples, all idle (RPM 800) with MAF 50 g/s: enough data for the
MAF-pattern checks. -/
def sessC4w : DiagnosticSession :=
  DiagnosticSession.mk "s4w" "Unknown" "" [] none
    (List.replicate 5 (PIDSample.mk [("MAF", 50), ("RPM", 800)]))

/-- Twenty-five identical ENGINE_LOAD readings (a stuck sensor). -/
def sessStuck : DiagnosticSession :=
  DiagnosticSession.mk "s7a" "Unknown" "" [] none
    (List.replicate 25 (PIDSample.mk [("ENGINE_LOAD", 42)]))

/-- Twenty-five ENGINE_LOAD readings over four distinct values. -/
def sessVaried : DiagnosticSession :=
  DiagnosticSession.mk "s7b" "Unknown" "" [] none
    ((List.range 25).map (fun i => PIDSample.mk [("ENGINE_LOAD", ((i % 4) * 10 : ℕ))]))

/-- Ten samples with RPM 1..10 and SPEED 10..1: perfectly anti-correlated. -/
def sessC8 : DiagnosticSession :=
  DiagnosticSession.mk "s8" "Unknown" "" [] none
    [PIDSample.mk [("RPM", 1), ("SPEED", 10)],
     PIDSample.mk [("RPM", 2), ("SPEED", 9)],
     PIDSample.mk [("RPM", 3), ("SPEED", 8)],
     PIDSample.mk [("RPM", 4), ("SPEED", 7)],
     PIDSample.mk [("RPM", 5), ("SPEED", 6)],
     PIDSample.mk [("RPM", 6), ("SPEED", 5)],
     PIDSample.mk [("RPM", 7), ("SPEED", 4)],
     PIDSample.mk [("RPM", 8), ("SPEED", 3)],
     PIDSample.mk [("RPM", 9), ("SPEED", 2)],
     PIDSample.mk [("RPM", 10), ("SPEED", 1)]]

/-- The RPM series extracted from `sessC8`. -/
def rlistC8 : List ℚ := [1, 2, 3, 4, 5, 6, 7, 8, 9, 10]

/-- The speed series extracted from `sessC8`. -/
def slistC8 : List ℚ := [10, 9, 8, 7, 6, 5, 4, 3, 2, 1]

/-- Two sessions with the same samples and trouble codes but different
identifiers, notes, protocol and tags. -/
def sessC9a : DiagnosticSession :=
  DiagnosticSession.mk "a" "Unknown" "first run" [] none [PIDSample.mk [("RPM", 800)]]

/-- See `sessC9a`. -/
def sessC9b : DiagnosticSession :=
  DiagnosticSession.mk "b" "ISO 9141-2" "second run" ["city"] none
    [PIDSample.mk [("RPM", 800)]]

/-! ## General lemmas -/

theorem mem_ite_nil {α : Type} {c : Prop} [Decidable c] {l : List α} {a : α} :
    a ∈ (if c then l else []) ↔ c ∧ a ∈ l := by
  split <;> simp_all

theorem mem_ite_nil_else {α : Type} {c : Prop} [Decidable c] {l : List α} {a : α} :
    a ∈ (if c then [] else l) ↔ ¬ c ∧ a ∈ l := by
  split <;> simp_all

theorem mem_singleton_ite {α : Type} {c : Prop} [Decidable c] {F a : α} :
    a ∈ (if c then [F] else []) ↔ c ∧ a = F := by
  split <;> simp_all

/-! ### String facts -/

theorem str_data_append (a b : String) : (a ++ b).data = a.data ++ b.data := by
  cases a
  cases b
  rfl

theorem str_ext {a b : String} (h : a.data = b.data) : a = b :=
  congrArg String.mk h

/-- The data of `a ++ b` ends in the data of `b`. -/
theorem append_suffix_data {a b t : String} (h : a ++ b = t) :
    t.data.drop (t.data.length - b.data.length) = b.data := by
  subst h
  rw [str_data_append, List.length_append]
  have h2 : a.data.length + b.data.length - b.data.length = a.data.length := by omega
  rw [h2]
  exact List.drop_left a.data b.data

/-- A string of the form `pid ++ " Sensor May Be Stuck"` determines `pid`. -/
theorem stuck_title_inj {p q : String}
    (h : p ++ " Sensor May Be Stuck" = q ++ " Sensor May Be Stuck") : p = q := by
  have h2 := congrArg String.data h
  rw [str_data_append, str_data_append] at h2
  exact str_ext (List.append_inj' h2 rfl).1

/-- A same-system title is never a stuck-sensor title. -/
theorem multi_ne_stuck (sys pid : String) :
    "Multiple " ++ sys ++ " Codes" ≠ pid ++ " Sensor May Be Stuck" := by
  intro h
  have h1 := append_suffix_data h
  have h2 := append_suffix_data (rfl :
    pid ++ " Sensor May Be Stuck" = pid ++ " Sensor May Be Stuck")
  have hlen : (pid ++ " Sensor May Be Stuck").data.length = pid.data.length + 20 := by
    rw [str_data_append, List.length_append]
    rfl
  rw [hlen] at h1 h2
  have h3 : (pid ++ " Sensor May Be Stuck").data.drop (pid.data.length + 20 - 6) =
      ((pid ++ " Sensor May Be Stuck").data.drop (pid.data.length + 20 - 20)).drop 14 := by
    rw [List.drop_drop]
    have harith : pid.data.length + 20 - 6 = pid.data.length + 20 - 20 + 14 := by omega
    rw [harith]
  rw [show (" Codes" : String).data.length = 6 from rfl] at h1
  rw [show (" Sensor May Be Stuck" : String).data.length = 20 from rfl] at h2
  rw [h3, h2] at h1
  exact absurd h1 (by decide)

/-! ### Lookup and key-set lemmas -/

theorem lookupPid_isSome_iff {m : List (String × ℚ)} {pid : String} :
    (lookupPid m pid).isSome ↔ ∃ kv ∈ m, kv.1 = pid := by
  induction m with
  | nil => simp [lookupPid]
  | cons kv t ih =>
    rw [lookupPid] at ih ⊢
    rcases kv with ⟨k, v⟩
    rw [List.lookup_cons]
    by_cases h : pid == k
    · simp only [h]
      have : k = pid := by
        have := eq_of_beq h
        exact this.symm
      simp [this]
    · simp only [h]
      simp only [Option.isSome] at ih ⊢
      rw [ih]
      constructor
      · rintro ⟨kv, hm, he⟩
        exact ⟨kv, List.mem_cons_of_mem _ hm, he⟩
      · rintro ⟨kv, hm, he⟩
        rcases List.mem_cons.mp hm with rfl | hm
        · exact absurd (beq_iff_eq.mpr he.symm) h
        · exact ⟨kv, hm, he⟩

theorem mem_insertKey {acc : List String} {k a : String} :
    a ∈ insertKey acc k ↔ a ∈ acc ∨ a = k := by
  unfold insertKey
  split <;> rename_i h
  · constructor
    · exact fun ha => Or.inl ha
    · rintro (ha | rfl)
      · exact ha
      · exact h
  · simp

theorem mem_values_fold {vals : List (String × ℚ)} {acc : List String} {a : String} :
    a ∈ vals.foldl (fun ac kv => insertKey ac kv.1) acc ↔
      a ∈ acc ∨ ∃ kv ∈ vals, kv.1 = a := by
  induction vals generalizing acc with
  | nil => simp
  | cons kv t ih =>
    rw [List.foldl_cons, ih, mem_insertKey]
    constructor
    · rintro ((ha | rfl) | ⟨kv2, hm, he⟩)
      · exact Or.inl ha
      · exact Or.inr ⟨kv, List.mem_cons_self _ _, rfl⟩
      · exact Or.inr ⟨kv2, List.mem_cons_of_mem _ hm, he⟩
    · rintro (ha | ⟨kv2, hm, he⟩)
      · exact Or.inl (Or.inl ha)
      · rcases List.mem_cons.mp hm with rfl | hm
        · exact Or.inl (Or.inr he.symm)
        · exact Or.inr ⟨kv2, hm, he⟩

theorem mem_sampleKeys {samples : List PIDSample} {a : String} :
    a ∈ sampleKeys samples ↔ ∃ s ∈ samples, ∃ kv ∈ s.values, kv.1 = a := by
  have main : ∀ (ss : List PIDSample) (acc : List String),
      a ∈ ss.foldl (fun acc s => s.values.foldl (fun ac kv => insertKey ac kv.1) acc) acc ↔
        a ∈ acc ∨ ∃ s ∈ ss, ∃ kv ∈ s.values, kv.1 = a := by
    intro ss
    induction ss with
    | nil => simp
    | cons s t ih =>
      intro acc
      rw [List.foldl_cons, ih, mem_values_fold]
      constructor
      · rintro ((ha | ⟨kv, hm, he⟩) | ⟨s2, hs, kv, hm, he⟩)
        · exact Or.inl ha
        · exact Or.inr ⟨s, List.mem_cons_self _ _, kv, hm, he⟩
        · exact Or.inr ⟨s2, List.mem_cons_of_mem _ hs, kv, hm, he⟩
      · rintro (ha | ⟨s2, hs, kv, hm, he⟩)
        · exact Or.inl (Or.inl ha)
        · rcases List.mem_cons.mp hs with rfl | hs
          · exact Or.inl (Or.inr ⟨kv, hm, he⟩)
          · exact Or.inr ⟨s2, hs, kv, hm, he⟩
  rw [sampleKeys, main]
  simp

/-- A parameter with a non-empty extracted series is one of the accumulated
dict keys. -/
theorem mem_sampleKeys_of_extract {samples : List PIDSample} {pid : String}
    (h : extractValues samples pid ≠ []) : pid ∈ sampleKeys samples := by
  rw [mem_sampleKeys]
  rcases hx : extractValues samples pid with _ | ⟨v, rest⟩
  · exact absurd hx h
  · have hv : v ∈ extractValues samples pid := by
      rw [hx]
      exact List.mem_cons_self _ _
    rw [extractValues, List.mem_filterMap] at hv
    rcases hv with ⟨s, hs, hl⟩
    have hsome : (lookupPid s.values pid).isSome := by
      rw [hl]
      rfl
    rcases lookupPid_isSome_iff.mp hsome with ⟨kv, hkv, he⟩
    exact ⟨s, hs, kv, hkv, he⟩

/-- A non-empty extracted series forces a non-empty sample list. -/
theorem samples_ne_nil_of_extract {samples : List PIDSample} {pid : String}
    (h : extractValues samples pid ≠ []) : ¬ samples.isEmpty := by
  intro he
  rcases samples with _ | ⟨s, t⟩
  · exact h rfl
  · simp [List.isEmpty] at he

/-! ### Shapes of FaultDetector findings -/

theorem not_isEmpty_of_length_lt {α : Type} {l : List α} {n : ℕ} (h : n < l.length) :
    ¬ l.isEmpty := by
  rcases l with _ | ⟨x, t⟩
  · simp at h
  · simp

theorem ne_nil_of_length_lt {α : Type} {l : List α} {n : ℕ} (h : n < l.length) :
    l ≠ [] := by
  rcases l with _ | ⟨x, t⟩
  · simp at h
  · simp

/-- Every finding produced by `_analyze_dtcs` is one of its three literals. -/
theorem shape_of_mem_analyzeDtcs {d : DTCReadResult} {f : AnalysisFinding}
    (h : f ∈ analyzeDtcs d) :
    (∃ codes, f = criticalDtcFinding codes) ∨
    (∃ sys codes, f = multiSystemFinding sys codes) ∨
    (∃ codes, f = recurringFinding codes) := by
  unfold analyzeDtcs criticalDtcFindings multiSystemFindings recurringFindings at h
  dsimp only at h
  rw [mem_ite_nil_else] at h
  rcases List.mem_append.mp h.2 with h2 | h2
  · rcases List.mem_append.mp h2 with h3 | h3
    · rw [mem_ite_nil_else] at h3
      exact Or.inl ⟨_, List.mem_singleton.mp h3.2⟩
    · rcases List.mem_filterMap.mp h3 with ⟨sys, hsys, hf⟩
      rcases Option.ite_none_right_eq_some.mp hf with ⟨hc, he⟩
      exact Or.inr (Or.inl ⟨sys, _, (Option.some.injEq _ _ ▸ he).symm⟩)
  · rw [mem_ite_nil_else] at h2
    exact Or.inr (Or.inr ⟨_, List.mem_singleton.mp h2.2⟩)

/-- Every finding produced by `_analyze_sensor_anomalies` is the coolant
literal or a stuck-sensor literal. -/
theorem shape_of_mem_sensorAnomaly {samples : List PIDSample} {f : AnalysisFinding}
    (h : f ∈ sensorAnomalyFindings samples) :
    f = coolantRisingFinding ∨ ∃ pid, f = stuckSensorFinding pid := by
  unfold sensorAnomalyFindings coolantRisingFindings stuckFindings at h
  dsimp only at h
  rcases List.mem_append.mp h with h2 | h2
  · split at h2
    · rcases mem_singleton_ite.mp h2 with ⟨_, rfl⟩
      exact Or.inl rfl
    · simp at h2
  · rcases List.mem_filterMap.mp h2 with ⟨pid, hpid, hf⟩
    rcases Option.ite_none_right_eq_some.mp hf with ⟨hc, he⟩
    exact Or.inr ⟨pid, (Option.some.injEq _ _ ▸ he).symm⟩

/-- Every finding produced by `_analyze_o2_sensors` is one of its three
literals. -/
theorem shape_of_mem_o2 {samples : List PIDSample} {f : AnalysisFinding}
    (h : f ∈ o2Findings samples) :
    f = o2NotSwitchingFinding ∨ f = o2RichFinding ∨ f = o2LeanFinding := by
  unfold o2Findings at h
  dsimp only at h
  split at h
  · simp at h
  · rcases List.mem_append.mp h with h2 | h2
    · exact Or.inl (mem_singleton_ite.mp h2).2
    · split at h2
      · exact Or.inr (Or.inl (List.mem_singleton.mp h2))
      · split at h2
        · exact Or.inr (Or.inr (List.mem_singleton.mp h2))
        · simp at h2

/-- Every finding produced by `_correlate_symptoms` is one of its two
literals. -/
theorem shape_of_mem_symptom {samples : List PIDSample} {f : AnalysisFinding}
    (h : f ∈ symptomFindings samples) :
    f = vacuumLeakFinding ∨ f = injectorIssueFinding := by
  unfold symptomFindings at h
  dsimp only at h
  rcases List.mem_append.mp h with h2 | h2
  · exact Or.inl (mem_singleton_ite.mp h2).2
  · exact Or.inr (mem_singleton_ite.mp h2).2

/-- The erratic-fuel-trim finding appears in `_analyze_fuel_system` exactly
under the source's condition (more than 10 values, sample variance above
100). -/
theorem erratic_mem_fuelSystemFindings {samples : List PIDSample} :
    erraticFuelTrimFinding ∈ fuelSystemFindings samples ↔
      10 < (extractValues samples "SHORT_FUEL_TRIM_1").length ∧
      100 * (((extractValues samples "SHORT_FUEL_TRIM_1").length : ℚ) - 1) <
        sqDevSum (extractValues samples "SHORT_FUEL_TRIM_1") := by
  unfold fuelSystemFindings
  dsimp only
  constructor
  · intro h
    rw [mem_ite_nil_else] at h
    rcases List.mem_append.mp h.2 with h2 | h2
    · exfalso
      split at h2
      · split at h2
        · exact absurd (List.mem_singleton.mp h2)
            (by decide)
        · split at h2
          · exact absurd (List.mem_singleton.mp h2) (by decide)
          · simp at h2
      · simp at h2
    · exact (mem_singleton_ite.mp h2).1
  · intro hc
    rw [mem_ite_nil_else]
    constructor
    · intro hb
      have : ¬ (extractValues samples "SHORT_FUEL_TRIM_1").isEmpty :=
        not_isEmpty_of_length_lt hc.1
      simp [hb.1] at this
    · exact List.mem_append.mpr (Or.inr (mem_singleton_ite.mpr ⟨hc, rfl⟩))

/-- Every finding produced by `_analyze_fuel_system` is one of its three
literals. -/
theorem shape_of_mem_fuelSystem {samples : List PIDSample} {f : AnalysisFinding}
    (h : f ∈ fuelSystemFindings samples) :
    f = runningLeanFinding ∨ f = runningRichFinding ∨ f = erraticFuelTrimFinding := by
  unfold fuelSystemFindings at h
  dsimp only at h
  rw [mem_ite_nil_else] at h
  rcases List.mem_append.mp h.2 with h2 | h2
  · split at h2
    · split at h2
      · exact Or.inl (List.mem_singleton.mp h2)
      · split at h2
        · exact Or.inr (Or.inl (List.mem_singleton.mp h2))
        · simp at h2
    · simp at h2
  · exact Or.inr (Or.inr (mem_singleton_ite.mp h2).2)

/-- FaultDetector emits the "Erratic Fuel Trim" finding exactly when the
session yields more than 10 SHORT_FUEL_TRIM_1 values whose sample variance
exceeds 100 (i.e. sample standard deviation above 10). -/
theorem erratic_fuel_trim_iff (s : DiagnosticSession) :
    (∃ f ∈ (faultsAnalyze s).findings, f.title = "Erratic Fuel Trim") ↔
      10 < (extractValues s.pid_samples "SHORT_FUEL_TRIM_1").length ∧
      100 * (((extractValues s.pid_samples "SHORT_FUEL_TRIM_1").length : ℚ) - 1) <
        sqDevSum (extractValues s.pid_samples "SHORT_FUEL_TRIM_1") := by
  constructor
  · rintro ⟨f, hf, ht⟩
    simp only [faultsAnalyze, faultsCore] at hf
    rcases List.mem_append.mp hf with hdtc | hpid
    · exfalso
      rcases hs : s.dtc_result with _ | d
      · rw [hs] at hdtc
        simp at hdtc
      · rw [hs] at hdtc
        rcases shape_of_mem_analyzeDtcs hdtc with ⟨codes, rfl⟩ | ⟨sys, codes, rfl⟩ | ⟨codes, rfl⟩
        · simp [criticalDtcFinding] at ht
        · exact absurd (append_suffix_data ht) (by decide)
        · simp [recurringFinding] at ht
    · rw [mem_ite_nil_else] at hpid
      rcases List.mem_append.mp hpid.2 with h4 | h4
      rotate_left
      · exfalso
        rcases shape_of_mem_symptom h4 with rfl | rfl
        · exact absurd ht (by decide)
        · exact absurd ht (by decide)
      rcases List.mem_append.mp h4 with h5 | h5
      rotate_left
      · exfalso
        rcases shape_of_mem_o2 h5 with rfl | rfl | rfl
        · exact absurd ht (by decide)
        · exact absurd ht (by decide)
        · exact absurd ht (by decide)
      rcases List.mem_append.mp h5 with h6 | h6
      · exfalso
        rcases shape_of_mem_sensorAnomaly h6 with rfl | ⟨pid, rfl⟩
        · exact absurd ht (by decide)
        · exact absurd (append_suffix_data ht) (by decide)
      · rcases shape_of_mem_fuelSystem h6 with rfl | rfl | rfl
        · exact absurd ht (by decide)
        · exact absurd ht (by decide)
        · exact erratic_mem_fuelSystemFindings.mp h6
  · intro hc
    refine ⟨erraticFuelTrimFinding, ?_, rfl⟩
    simp only [faultsAnalyze, faultsCore]
    refine List.mem_append.mpr (Or.inr ?_)
    rw [mem_ite_nil_else]
    have hne : extractValues s.pid_samples "SHORT_FUEL_TRIM_1" ≠ [] :=
      ne_nil_of_length_lt hc.1
    refine ⟨samples_ne_nil_of_extract hne, ?_⟩
    refine List.mem_append.mpr (Or.inl ?_)
    refine List.mem_append.mpr (Or.inl ?_)
    refine List.mem_append.mpr (Or.inr ?_)
    exact erratic_mem_fuelSystemFindings.mpr hc

/-! ## Claim C3: erratic fuel trim -/

/-- Claim C3 (counterexample): `sessC3` yields exactly 10 SHORT_FUEL_TRIM_1
values whose population variance exceeds 100 (population standard deviation
15 > 10), yet FaultDetector emits no "Erratic Fuel Trim" finding — the
source requires strictly more than 10 values and compares the sample
standard deviation. -/
theorem claim_C3_counterexample :
    (extractValues sessC3.pid_samples "SHORT_FUEL_TRIM_1").length = 10 ∧
    100 * ((extractValues sessC3.pid_samples "SHORT_FUEL_TRIM_1").length : ℚ) <
      sqDevSum (extractValues sessC3.pid_samples "SHORT_FUEL_TRIM_1") ∧
    ¬ ∃ f ∈ (faultsAnalyze sessC3).findings, f.title = "Erratic Fuel Trim" := by
  have hval : extractValues sessC3.pid_samples "SHORT_FUEL_TRIM_1" =
      [0, 0, 0, 0, 0, 30, 30, 30, 30, 30] := rfl
  refine ⟨rfl, ?_, ?_⟩
  · rw [hval]
    norm_num [sqDevSum, mean]
  · intro h
    have h2 := (erratic_fuel_trim_iff sessC3).mp h
    rw [hval] at h2
    simp at h2

/-- Claim C3 (amended): FaultDetector emits the info-severity "Erratic Fuel
Trim" finding if and only if the session yields strictly more than 10
SHORT_FUEL_TRIM_1 values and their sample standard deviation exceeds 10
(stated exactly: the squared-deviation sum exceeds `100 * (n - 1)`). -/
theorem claim_C3_erratic_fuel_trim (s : DiagnosticSession) :
    (∃ f ∈ (faultsAnalyze s).findings, f.title = "Erratic Fuel Trim") ↔
      10 < (extractValues s.pid_samples "SHORT_FUEL_TRIM_1").length ∧
      100 * (((extractValues s.pid_samples "SHORT_FUEL_TRIM_1").length : ℚ) - 1) <
        sqDevSum (extractValues s.pid_samples "SHORT_FUEL_TRIM_1") :=
  erratic_fuel_trim_iff s

/-- Claim C3 (witness): on `sessC3w` (11 values, sample variance above 100)
the finding is emitted. -/
theorem claim_C3_witness :
    ∃ f ∈ (faultsAnalyze sessC3w).findings, f.title = "Erratic Fuel Trim" := by
  refine (claim_C3_erratic_fuel_trim sessC3w).mpr ?_
  have hval : extractValues sessC3w.pid_samples "SHORT_FUEL_TRIM_1" =
      [0, 0, 0, 0, 0, 0, 30, 30, 30, 30, 30] := rfl
  rw [hval]
  norm_num [sqDevSum, mean]

/-! ## Claim C7: stuck sensors -/

theorem dedup_replicate {α : Type} [DecidableEq α] (n : ℕ) (x : α) (h : 0 < n) :
    (List.replicate n x).dedup = [x] := by
  induction n with
  | zero => omega
  | succ n ih =>
    rcases Nat.eq_zero_or_pos n with rfl | hpos
    · simp
    · rw [List.replicate_succ, List.dedup_cons_of_mem (by
        simp [List.mem_replicate]
        omega), ih hpos]

theorem distinctRounded1_replicate (n : ℕ) (q : ℚ) (h : 0 < n) :
    distinctRounded1 (List.replicate n q) = 1 := by
  rw [distinctRounded1, List.map_replicate, dedup_replicate n (round1 q) h]
  rfl

/-- The stuck-sensor finding for `pid` appears in the stuck-sensor scan
exactly under the source's condition. -/
theorem stuck_mem_stuckFindings {samples : List PIDSample} {pid : String} :
    stuckSensorFinding pid ∈ stuckFindings samples ↔
      20 < (extractValues samples pid).length ∧
      distinctRounded1 (extractValues samples pid) < 3 := by
  unfold stuckFindings
  rw [List.mem_filterMap]
  constructor
  · rintro ⟨pid2, hmem, hf⟩
    dsimp only at hf
    rcases Option.ite_none_right_eq_some.mp hf with ⟨hc, he⟩
    have he2 : stuckSensorFinding pid2 = stuckSensorFinding pid := by
      simpa using he
    have heq : pid2 = pid := stuck_title_inj (congrArg AnalysisFinding.title he2)
    subst heq
    exact hc
  · intro hc
    have hne : extractValues samples pid ≠ [] := ne_nil_of_length_lt hc.1
    exact ⟨pid, mem_sampleKeys_of_extract hne, by
      dsimp only
      rw [if_pos hc]⟩

/-- FaultDetector emits the stuck-sensor finding for `pid` exactly when the
accumulated series for `pid` has more than 20 points and fewer than 3
distinct values after rounding to 1 decimal place. -/
theorem stuck_sensor_iff (s : DiagnosticSession) (pid : String) :
    (∃ f ∈ (faultsAnalyze s).findings, f.title = pid ++ " Sensor May Be Stuck") ↔
      20 < (extractValues s.pid_samples pid).length ∧
      distinctRounded1 (extractValues s.pid_samples pid) < 3 := by
  constructor
  · rintro ⟨f, hf, ht⟩
    simp only [faultsAnalyze, faultsCore] at hf
    rcases List.mem_append.mp hf with hdtc | hpid
    · exfalso
      rcases hs : s.dtc_result with _ | d
      · rw [hs] at hdtc
        simp at hdtc
      · rw [hs] at hdtc
        rcases shape_of_mem_analyzeDtcs hdtc with ⟨codes, rfl⟩ | ⟨sys, codes, rfl⟩ | ⟨codes, rfl⟩
        · simp only [criticalDtcFinding] at ht
          exact absurd (append_suffix_data ht.symm) (by decide)
        · exact absurd ht (multi_ne_stuck sys pid)
        · simp only [recurringFinding] at ht
          exact absurd (append_suffix_data ht.symm) (by decide)
    · rw [mem_ite_nil_else] at hpid
      rcases List.mem_append.mp hpid.2 with h4 | h4
      rotate_left
      · exfalso
        rcases shape_of_mem_symptom h4 with rfl | rfl
        · exact absurd (append_suffix_data ht.symm) (by decide)
        · exact absurd (append_suffix_data ht.symm) (by decide)
      rcases List.mem_append.mp h4 with h5 | h5
      rotate_left
      · exfalso
        rcases shape_of_mem_o2 h5 with rfl | rfl | rfl
        · exact absurd (append_suffix_data ht.symm) (by decide)
        · exact absurd (append_suffix_data ht.symm) (by decide)
        · exact absurd (append_suffix_data ht.symm) (by decide)
      rcases List.mem_append.mp h5 with h6 | h6
      · rcases shape_of_mem_sensorAnomaly h6 with rfl | ⟨pid2, rfl⟩
        · exact absurd (append_suffix_data ht.symm) (by decide)
        · have heq : pid2 = pid := stuck_title_inj ht
          subst heq
          -- h6 is membership in sensorAnomalyFindings; reduce to the scan
          unfold sensorAnomalyFindings at h6
          rcases List.mem_append.mp h6 with h7 | h7
          · exfalso
            unfold coolantRisingFindings at h7
            dsimp only at h7
            split at h7
            · rcases mem_singleton_ite.mp h7 with ⟨_, habs⟩
              exact absurd (append_suffix_data (congrArg AnalysisFinding.title habs))
                (by decide)
            · simp at h7
          · exact stuck_mem_stuckFindings.mp h7
      · exfalso
        rcases shape_of_mem_fuelSystem h6 with rfl | rfl | rfl
        · exact absurd (append_suffix_data ht.symm) (by decide)
        · exact absurd (append_suffix_data ht.symm) (by decide)
        · exact absurd (append_suffix_data ht.symm) (by decide)
  · intro hc
    refine ⟨stuckSensorFinding pid, ?_, rfl⟩
    simp only [faultsAnalyze, faultsCore]
    refine List.mem_append.mpr (Or.inr ?_)
    rw [mem_ite_nil_else]
    have hne : extractValues s.pid_samples pid ≠ [] := ne_nil_of_length_lt hc.1
    refine ⟨samples_ne_nil_of_extract hne, ?_⟩
    refine List.mem_append.mpr (Or.inl ?_)
    refine List.mem_append.mpr (Or.inl ?_)
    refine List.mem_append.mpr (Or.inl ?_)
    exact List.mem_append.mpr (Or.inr (stuck_mem_stuckFindings.mpr hc))

/-- Claim C7: for every session and parameter, the "Sensor May Be Stuck"
warning for that parameter is emitted if and only if the parameter's series
has more than 20 points and fewer than 3 distinct values after rounding to 1
decimal place. -/
theorem claim_C7_stuck_sensor (s : DiagnosticSession) (pid : String) :
    (∃ f ∈ (faultsAnalyze s).findings, f.title = pid ++ " Sensor May Be Stuck") ↔
      20 < (extractValues s.pid_samples pid).length ∧
      distinctRounded1 (extractValues s.pid_samples pid) < 3 :=
  stuck_sensor_iff s pid

/-- Claim C7 (witness): a constant series of 25 identical ENGINE_LOAD values
triggers the finding, and the 25-point four-valued series does not. -/
theorem claim_C7_witness :
    (∃ f ∈ (faultsAnalyze sessStuck).findings,
      f.title = "ENGINE_LOAD" ++ " Sensor May Be Stuck") ∧
    ¬ (∃ f ∈ (faultsAnalyze sessVaried).findings,
      f.title = "ENGINE_LOAD" ++ " Sensor May Be Stuck") := by
  constructor
  · refine (claim_C7_stuck_sensor sessStuck "ENGINE_LOAD").mpr ?_
    have hval : extractValues sessStuck.pid_samples "ENGINE_LOAD" =
        List.replicate 25 (42 : ℚ) := rfl
    rw [hval, distinctRounded1_replicate 25 42 (by omega)]
    simp
  · intro h
    have h2 := (claim_C7_stuck_sensor sessVaried "ENGINE_LOAD").mp h
    have hval : extractValues sessVaried.pid_samples "ENGINE_LOAD" =
        ((List.range 25).map (fun i => ((i % 4) * 10 : ℕ) : ℕ → ℚ)) := by
      rfl
    rw [hval] at h2
    revert h2
    norm_num [distinctRounded1, round1, roundHalfEven, List.range_succ]

/-! ## Claim C2: throttle response lag -/

theorem shape_of_mem_rpmStability {rpm_values : List ℚ} {f : AnalysisFinding}
    (h : f ∈ rpmStabilityFindings rpm_values) :
    f = roughIdleFinding ∨ f = rpmFluctuationsFinding := by
  unfold rpmStabilityFindings at h
  split at h
  · simp at h
  · rcases List.mem_append.mp h with h2 | h2
    · exact Or.inl (mem_singleton_ite.mp h2).2
    · exact Or.inr (mem_singleton_ite.mp h2).2

theorem shape_of_mem_loadPattern {load_values : List ℚ} {f : AnalysisFinding}
    (h : f ∈ loadPatternFindings load_values) :
    f = highIdleLoadFinding ∨ f = loadFluctuationsFinding := by
  unfold loadPatternFindings at h
  split at h
  · simp at h
  · rcases List.mem_append.mp h with h2 | h2
    · exact Or.inl (mem_singleton_ite.mp h2).2
    · exact Or.inr (mem_singleton_ite.mp h2).2

theorem shape_of_mem_coolantTemp {coolant_values : List ℚ} {f : AnalysisFinding}
    (h : f ∈ coolantTempFindings coolant_values) :
    f = elevatedCoolantFinding ∨ f = warmCoolantFinding ∨ f = notReachingTempFinding := by
  unfold coolantTempFindings at h
  split at h
  · simp at h
  · rcases List.mem_append.mp h with h2 | h2
    · split at h2
      · exact Or.inl (List.mem_singleton.mp h2)
      · split at h2
        · exact Or.inr (Or.inl (List.mem_singleton.mp h2))
        · simp at h2
    · exact Or.inr (Or.inr (mem_singleton_ite.mp h2).2)

theorem shape_of_mem_misfire {d : DTCReadResult} {f : AnalysisFinding}
    (h : f ∈ misfireDtcFindings d) : ∃ codes, f = misfireCodesFinding codes := by
  unfold misfireDtcFindings at h
  dsimp only at h
  rw [mem_ite_nil_else] at h
  exact ⟨_, List.mem_singleton.mp h.2⟩

theorem shape_of_mem_throttleResponse {throttle_values rpm_values : List ℚ}
    {f : AnalysisFinding} (h : f ∈ throttleResponseFindings throttle_values rpm_values) :
    f = throttleLagFinding := by
  unfold throttleResponseFindings at h
  split at h
  · simp at h
  · split at h
    · exact List.mem_singleton.mp h
    · simp at h

/-- The throttle-lag finding appears in `_analyze_throttle_response` exactly
when both series have at least 10 points and the source's slow-response count
exceeds 2. -/
theorem throttleLag_mem_iff {throttle_values rpm_values : List ℚ} :
    throttleLagFinding ∈ throttleResponseFindings throttle_values rpm_values ↔
      ¬ (throttle_values.length < 10 ∨ rpm_values.length < 10) ∧
      2 < slowResponseCount throttle_values rpm_values := by
  unfold throttleResponseFindings
  constructor
  · intro h
    split at h
    · simp at h
    · split at h
      · rename_i h1 h2
        exact ⟨h1, h2⟩
      · simp at h
  · rintro ⟨h1, h2⟩
    rw [if_neg h1, if_pos h2]
    exact List.mem_singleton.mpr rfl

/-- PerformanceAnalyzer emits the "Throttle Response Lag" warning exactly
when the THROTTLE_POS and RPM series both have at least 10 points and the
source's slow-response count (guarded by `idx + 3 < len(rpm)`) exceeds 2. -/
theorem throttle_lag_iff (s : DiagnosticSession) :
    (∃ f ∈ (performanceAnalyze s).findings, f.title = "Throttle Response Lag") ↔
      10 ≤ (extractValues s.pid_samples "THROTTLE_POS").length ∧
      10 ≤ (extractValues s.pid_samples "RPM").length ∧
      2 < slowResponseCount (extractValues s.pid_samples "THROTTLE_POS")
        (extractValues s.pid_samples "RPM") := by
  constructor
  · rintro ⟨f, hf, ht⟩
    simp only [performanceAnalyze, performanceCore] at hf
    split at hf
    · exfalso
      rcases List.mem_singleton.mp hf with rfl
      simp [noDataFinding] at ht
    · rcases List.mem_append.mp hf with h4 | h4
      rotate_left
      · exfalso
        rcases hs : s.dtc_result with _ | d
        · rw [hs] at h4
          simp at h4
        · rw [hs] at h4
          rcases shape_of_mem_misfire h4 with ⟨codes, rfl⟩
          simp [misfireCodesFinding] at ht
      rcases List.mem_append.mp h4 with h5 | h5
      rotate_left
      · exfalso
        rw [mem_ite_nil] at h5
        rcases shape_of_mem_coolantTemp h5.2 with rfl | rfl | rfl
        · exact absurd ht (by decide)
        · exact absurd ht (by decide)
        · exact absurd ht (by decide)
      rcases List.mem_append.mp h5 with h6 | h6
      rotate_left
      · rw [mem_ite_nil] at h6
        rcases shape_of_mem_throttleResponse h6.2 with rfl
        have h7 := throttleLag_mem_iff.mp h6.2
        push_neg at h7
        exact ⟨h7.1.1, h7.1.2, h7.2⟩
      rcases List.mem_append.mp h6 with h7 | h7
      · exfalso
        rw [mem_ite_nil] at h7
        rcases shape_of_mem_rpmStability h7.2 with rfl | rfl
        · exact absurd ht (by decide)
        · exact absurd ht (by decide)
      · exfalso
        rw [mem_ite_nil] at h7
        rcases shape_of_mem_loadPattern h7.2 with rfl | rfl
        · exact absurd ht (by decide)
        · exact absurd ht (by decide)
  · rintro ⟨h1, h2, h3⟩
    refine ⟨throttleLagFinding, ?_, rfl⟩
    simp only [performanceAnalyze, performanceCore]
    have hthr : extractValues s.pid_samples "THROTTLE_POS" ≠ [] :=
      @ne_nil_of_length_lt _ _ 0 (by omega)
    rw [if_neg (by
      simpa using samples_ne_nil_of_extract hthr)]
    dsimp only
    refine List.mem_append.mpr (Or.inl ?_)
    refine List.mem_append.mpr (Or.inl ?_)
    refine List.mem_append.mpr (Or.inr ?_)
    rw [mem_ite_nil]
    refine ⟨⟨not_isEmpty_of_length_lt (show 0 < _ by omega),
      not_isEmpty_of_length_lt (show 0 < _ by omega)⟩, ?_⟩
    exact throttleLag_mem_iff.mpr ⟨by omega, h3⟩

/-- Claim C2 (counterexample): in `sessC2` both series have 10 points and the
claim-side slow-response count (index `i + 2` merely within the RPM series)
is 3, yet the source counts only 2 — its guard is `idx + 3 < len(rpm)`, which
excludes the jump at index 7 — and no "Throttle Response Lag" finding is
emitted. -/
theorem claim_C2_counterexample :
    (extractValues sessC2.pid_samples "THROTTLE_POS").length = 10 ∧
    (extractValues sessC2.pid_samples "RPM").length = 10 ∧
    2 < claimSlowResponseCount (extractValues sessC2.pid_samples "THROTTLE_POS")
      (extractValues sessC2.pid_samples "RPM") ∧
    ¬ ∃ f ∈ (performanceAnalyze sessC2).findings, f.title = "Throttle Response Lag" := by
  have hthr : extractValues sessC2.pid_samples "THROTTLE_POS" =
      [0, 20, 40, 0, 0, 0, 0, 20, 0, 0] := rfl
  have hrpm : extractValues sessC2.pid_samples "RPM" =
      [800, 800, 800, 800, 800, 800, 800, 800, 800, 800] := rfl
  refine ⟨rfl, rfl, ?_, ?_⟩
  · rw [hthr, hrpm]
    norm_num [claimSlowResponseCount, throttleIncreases, List.range_succ]
  · intro h
    have h2 := (throttle_lag_iff sessC2).mp h
    rw [hthr, hrpm] at h2
    have h3 : slowResponseCount
        ([0, 20, 40, 0, 0, 0, 0, 20, 0, 0] : List ℚ)
        ([800, 800, 800, 800, 800, 800, 800, 800, 800, 800] : List ℚ) = 2 := by
      norm_num [slowResponseCount, throttleIncreases, List.range_succ]
    rw [h3] at h2
    omega

/-- Claim C2 (amended): with at least 10 THROTTLE_POS and 10 RPM values, the
"Throttle Response Lag" warning is emitted if and only if the number of
indices `i` with `throttle[i] - throttle[i-1] > 10`, `i + 3 < len(rpm)` (not
merely `i + 2` within range) and `rpm[i+2] - rpm[i] < 100` is greater
than 2. -/
theorem claim_C2_throttle_lag (s : DiagnosticSession)
    (h1 : 10 ≤ (extractValues s.pid_samples "THROTTLE_POS").length)
    (h2 : 10 ≤ (extractValues s.pid_samples "RPM").length) :
    (∃ f ∈ (performanceAnalyze s).findings, f.title = "Throttle Response Lag") ↔
      2 < slowResponseCount (extractValues s.pid_samples "THROTTLE_POS")
        (extractValues s.pid_samples "RPM") := by
  rw [throttle_lag_iff s]
  constructor
  · exact fun h => h.2.2
  · exact fun h => ⟨h1, h2, h⟩

/-- Claim C2 (witness): on `sessC2w` the source counts 3 slow responses and
the warning is emitted. -/
theorem claim_C2_witness :
    ∃ f ∈ (performanceAnalyze sessC2w).findings, f.title = "Throttle Response Lag" := by
  refine (claim_C2_throttle_lag sessC2w (by decide) (by decide)).mpr ?_
  have hthr : extractValues sessC2w.pid_samples "THROTTLE_POS" =
      [0, 20, 40, 0, 20, 0, 0, 0, 0, 0] := rfl
  have hrpm : extractValues sessC2w.pid_samples "RPM" =
      [800, 800, 800, 800, 800, 800, 800, 800, 800, 800] := rfl
  rw [hthr, hrpm]
  norm_num [slowResponseCount, throttleIncreases, List.range_succ]

/-! ## Claim C4: high idle airflow -/

theorem shape_of_mem_mpgPattern {mpg_values : List ℚ} {f : AnalysisFinding}
    (h : f ∈ mpgPatternFindings mpg_values) :
    f = poorEconomyFinding ∨ f = inconsistentEconomyFinding := by
  unfold mpgPatternFindings at h
  split at h
  · simp at h
  · rcases List.mem_append.mp h with h2 | h2
    · exact Or.inl (mem_singleton_ite.mp h2).2
    · exact Or.inr (mem_singleton_ite.mp h2).2

theorem shape_of_mem_mafPattern {maf_values rpm_values : List ℚ} {f : AnalysisFinding}
    (h : f ∈ mafPatternFindings maf_values rpm_values) :
    f = highAirflowFinding ∨ f = highIdleAirflowFinding := by
  unfold mafPatternFindings at h
  split at h
  · simp at h
  · rcases List.mem_append.mp h with h2 | h2
    · exact Or.inl (mem_singleton_ite.mp h2).2
    · rw [mem_ite_nil] at h2
      exact Or.inr (mem_singleton_ite.mp h2.2).2

theorem shape_of_mem_idleFuel {maf_values rpm_values : List ℚ} {f : AnalysisFinding}
    (h : f ∈ idleFuelFindings maf_values rpm_values) : f = highIdleFuelFinding := by
  unfold idleFuelFindings at h
  dsimp only at h
  split at h
  · simp at h
  · exact (mem_singleton_ite.mp h).2

theorem shape_of_mem_drivingEff {speed_values rpm_values : List ℚ} {f : AnalysisFinding}
    (h : f ∈ drivingEfficiencyFindings speed_values rpm_values) :
    f = highRpmPatternFinding := by
  unfold drivingEfficiencyFindings at h
  split at h
  · simp at h
  · dsimp only at h
    split at h
    · simp at h
    · exact (mem_singleton_ite.mp h).2

theorem shape_of_mem_acceleration {speed_values : List ℚ} {f : AnalysisFinding}
    (h : f ∈ accelerationFindings speed_values) :
    f = aggressiveAccelFinding ∨ f = excessiveIdlingFinding := by
  unfold accelerationFindings at h
  split at h
  · simp at h
  · dsimp only at h
    split at h
    · simp at h
    · rcases List.mem_append.mp h with h2 | h2
      · exact Or.inl (mem_singleton_ite.mp h2).2
      · exact Or.inr (mem_singleton_ite.mp h2).2

/-- The high-idle-airflow finding appears in `_analyze_maf_patterns` exactly
under the source's conditions: at least 5 MAF values, an RPM series of equal
length, a non-empty index-aligned idle set, and mean idle MAF above 10. -/
theorem highIdleAirflow_mem_iff {maf_values rpm_values : List ℚ} :
    highIdleAirflowFinding ∈ mafPatternFindings maf_values rpm_values ↔
      ¬ (maf_values.length < 5) ∧ ¬ rpm_values.isEmpty ∧
      rpm_values.length = maf_values.length ∧
      ¬ (idleMafSeries maf_values rpm_values).isEmpty ∧
      10 < mean (idleMafSeries maf_values rpm_values) := by
  unfold mafPatternFindings
  constructor
  · intro h
    split at h
    · simp at h
    · rename_i h5
      rcases List.mem_append.mp h with h2 | h2
      · exact absurd (mem_singleton_ite.mp h2).2 (by decide)
      · rw [mem_ite_nil] at h2
        have h3 := mem_singleton_ite.mp h2.2
        exact ⟨h5, h2.1.1, h2.1.2, h3.1.1, h3.1.2⟩
  · rintro ⟨h5, h1, h2, h3, h4⟩
    rw [if_neg h5]
    refine List.mem_append.mpr (Or.inr ?_)
    rw [mem_ite_nil]
    exact ⟨⟨h1, h2⟩, mem_singleton_ite.mpr ⟨⟨h3, h4⟩, rfl⟩⟩

/-- FuelEconomyAnalyzer emits "High Idle Airflow" exactly when the MAF series
has at least 5 points, the RPM series has the same length, the index-aligned
idle set is non-empty, and its mean exceeds 10 g/s. -/
theorem high_idle_airflow_iff (s : DiagnosticSession) :
    (∃ f ∈ (fuelAnalyze s).findings, f.title = "High Idle Airflow") ↔
      5 ≤ (extractValues s.pid_samples "MAF").length ∧
      (extractValues s.pid_samples "RPM").length =
        (extractValues s.pid_samples "MAF").length ∧
      ¬ (idleMafSeries (extractValues s.pid_samples "MAF")
          (extractValues s.pid_samples "RPM")).isEmpty ∧
      10 < mean (idleMafSeries (extractValues s.pid_samples "MAF")
          (extractValues s.pid_samples "RPM")) := by
  constructor
  · rintro ⟨f, hf, ht⟩
    simp only [fuelAnalyze, fuelCore] at hf
    split at hf
    · exfalso
      rcases List.mem_singleton.mp hf with rfl
      simp [noDataFinding] at ht
    · rcases List.mem_append.mp hf with h4 | h4
      rotate_left
      · exfalso
        rw [mem_ite_nil] at h4
        rcases shape_of_mem_acceleration h4.2 with rfl | rfl
        · exact absurd ht (by decide)
        · exact absurd ht (by decide)
      rcases List.mem_append.mp h4 with h5 | h5
      rotate_left
      · exfalso
        rw [mem_ite_nil] at h5
        rcases shape_of_mem_drivingEff h5.2 with rfl
        exact absurd ht (by decide)
      rcases List.mem_append.mp h5 with h6 | h6
      rotate_left
      · exfalso
        rw [mem_ite_nil] at h6
        rcases shape_of_mem_idleFuel h6.2 with rfl
        exact absurd ht (by decide)
      rcases List.mem_append.mp h6 with h7 | h7
      · exfalso
        rw [mem_ite_nil] at h7
        rcases shape_of_mem_mpgPattern h7.2 with rfl | rfl
        · exact absurd ht (by decide)
        · exact absurd ht (by decide)
      · rw [mem_ite_nil] at h7
        rcases shape_of_mem_mafPattern h7.2 with rfl | rfl
        · exact absurd ht (by decide)
        · have h8 := highIdleAirflow_mem_iff.mp h7.2
          exact ⟨by omega, h8.2.2.1, h8.2.2.2.1, h8.2.2.2.2⟩
  · rintro ⟨h1, h2, h3, h4⟩
    refine ⟨highIdleAirflowFinding, ?_, rfl⟩
    simp only [fuelAnalyze, fuelCore]
    have hmaf : extractValues s.pid_samples "MAF" ≠ [] :=
      @ne_nil_of_length_lt _ _ 0 (by omega)
    rw [if_neg (by simpa using samples_ne_nil_of_extract hmaf)]
    dsimp only
    refine List.mem_append.mpr (Or.inl ?_)
    refine List.mem_append.mpr (Or.inl ?_)
    refine List.mem_append.mpr (Or.inl ?_)
    refine List.mem_append.mpr (Or.inr ?_)
    rw [mem_ite_nil]
    refine ⟨not_isEmpty_of_length_lt (show 0 < _ by omega), ?_⟩
    refine highIdleAirflow_mem_iff.mpr ⟨by omega, ?_, h2, h3, h4⟩
    exact @not_isEmpty_of_length_lt _ _ 0 (by rw [h2]; omega)

/-- Claim C4 (counterexample): `sessC4` yields MAF and RPM series of length 4
with every sample idle (RPM 800 < 1000) and mean idle MAF 50 > 10, yet
FuelEconomyAnalyzer emits no "High Idle Airflow" finding, because the source
requires at least 5 MAF values before running the MAF-pattern checks. -/
theorem claim_C4_counterexample :
    (extractValues sessC4.pid_samples "MAF").length = 4 ∧
    (extractValues sessC4.pid_samples "RPM").length = 4 ∧
    ¬ (idleMafSeries (extractValues sessC4.pid_samples "MAF")
        (extractValues sessC4.pid_samples "RPM")).isEmpty ∧
    10 < mean (idleMafSeries (extractValues sessC4.pid_samples "MAF")
        (extractValues sessC4.pid_samples "RPM")) ∧
    ¬ ∃ f ∈ (fuelAnalyze sessC4).findings, f.title = "High Idle Airflow" := by
  have hmaf : extractValues sessC4.pid_samples "MAF" = [50, 50, 50, 50] := rfl
  have hrpm : extractValues sessC4.pid_samples "RPM" = [800, 800, 800, 800] := rfl
  have hidle : idleMafSeries (extractValues sessC4.pid_samples "MAF")
      (extractValues sessC4.pid_samples "RPM") = [50, 50, 50, 50] := by
    rw [hmaf, hrpm]
    norm_num [idleMafSeries, List.range_succ, List.filterMap_cons]
  refine ⟨rfl, rfl, ?_, ?_, ?_⟩
  · rw [hidle]
    simp
  · rw [hidle]
    norm_num [mean]
  · intro h
    have h2 := (high_idle_airflow_iff sessC4).mp h
    rw [hmaf] at h2
    simp at h2

/-- Claim C4 (amended): for every session, the "High Idle Airflow" warning is
emitted if and only if the MAF series has at least 5 points, the RPM series
has exactly the same length, the set of MAF readings at index-aligned idle
(RPM < 1000) positions is non-empty, and its mean exceeds 10 g/s; the
additional length preconditions come from the source's `len(maf) < 5` early
return and its `len(rpm) == len(maf)` alignment guard. -/
theorem claim_C4_high_idle_airflow (s : DiagnosticSession) :
    (∃ f ∈ (fuelAnalyze s).findings, f.title = "High Idle Airflow") ↔
      5 ≤ (extractValues s.pid_samples "MAF").length ∧
      (extractValues s.pid_samples "RPM").length =
        (extractValues s.pid_samples "MAF").length ∧
      ¬ (idleMafSeries (extractValues s.pid_samples "MAF")
          (extractValues s.pid_samples "RPM")).isEmpty ∧
      10 < mean (idleMafSeries (extractValues s.pid_samples "MAF")
          (extractValues s.pid_samples "RPM")) :=
  high_idle_airflow_iff s

/-- Claim C4 (witness): five idle samples with MAF 50 trigger the finding. -/
theorem claim_C4_witness :
    ∃ f ∈ (fuelAnalyze sessC4w).findings, f.title = "High Idle Airflow" := by
  refine (claim_C4_high_idle_airflow sessC4w).mpr ?_
  have hmaf : extractValues sessC4w.pid_samples "MAF" = [50, 50, 50, 50, 50] := rfl
  have hrpm : extractValues sessC4w.pid_samples "RPM" =
      [800, 800, 800, 800, 800] := rfl
  have hidle : idleMafSeries (extractValues sessC4w.pid_samples "MAF")
      (extractValues sessC4w.pid_samples "RPM") = [50, 50, 50, 50, 50] := by
    rw [hmaf, hrpm]
    norm_num [idleMafSeries, List.range_succ, List.filterMap_cons]
  rw [hidle, hmaf, hrpm]
  refine ⟨by norm_num, by norm_num, by simp, ?_⟩
  norm_num [mean]

/-! ## Claim C1: zero-sample sessions -/

theorem str_append_ne_empty (a b : String) (ha : a ≠ "") : a ++ b ≠ "" := by
  intro h
  apply ha
  have h2 := congrArg String.data h
  rw [str_data_append] at h2
  exact str_ext (List.append_eq_nil.mp h2).1

theorem faultSummary_ne_empty (l : List AnalysisFinding) : faultSummary l ≠ "" := by
  unfold faultSummary
  dsimp only
  split
  · exact str_append_ne_empty _ _ (str_append_ne_empty _ _ (by decide))
  · split
    · exact str_append_ne_empty _ _ (str_append_ne_empty _ _ (by decide))
    · decide

/-- Claim C1 (counterexample): a session with zero samples and no
trouble-code read makes FaultDetector return zero findings, not one
info finding — it has no insufficient-data early return. -/
theorem claim_C1_counterexample :
    emptySession.pid_samples = [] ∧
    (faultsAnalyze emptySession).findings.length = 0 := by
  exact ⟨rfl, rfl⟩

/-- Claim C1 (amended): on a session with zero PID samples, the Correlator,
FuelEconomyAnalyzer and PerformanceAnalyzer each return exactly one
info-severity finding and a non-empty summary, regardless of any attached
dtc_result; FaultDetector also returns normally with a non-empty summary,
but its findings are exactly the trouble-code findings derived from the
attached dtc_result (so the empty list when none is attached). -/
theorem claim_C1_zero_sample_sessions (s : DiagnosticSession)
    (h : s.pid_samples = []) :
    ((correlatorAnalyze s).findings.length = 1 ∧
      (∀ f ∈ (correlatorAnalyze s).findings, f.severity = "info") ∧
      (correlatorAnalyze s).summary ≠ "") ∧
    ((fuelAnalyze s).findings.length = 1 ∧
      (∀ f ∈ (fuelAnalyze s).findings, f.severity = "info") ∧
      (fuelAnalyze s).summary ≠ "") ∧
    ((performanceAnalyze s).findings.length = 1 ∧
      (∀ f ∈ (performanceAnalyze s).findings, f.severity = "info") ∧
      (performanceAnalyze s).summary ≠ "") ∧
    ((faultsAnalyze s).findings =
      (match s.dtc_result with
       | some d => analyzeDtcs d
       | none => []) ∧
      (faultsAnalyze s).summary ≠ "") := by
  have hcorr : correlatorAnalyze s = AnalysisResult.mk
      "Statistical Correlation Analysis" [insufficientDataFinding]
      "Insufficient data for correlation analysis" [] := by
    unfold correlatorAnalyze correlatorCore
    rw [h]
    rw [if_pos (by simp)]
  have hfuel : fuelAnalyze s = AnalysisResult.mk "Fuel Economy Analysis"
      [noDataFinding] "Insufficient data for fuel analysis" [] := by
    unfold fuelAnalyze fuelCore
    rw [h]
    simp
  have hperf : performanceAnalyze s = AnalysisResult.mk "Performance Analysis"
      [noDataFinding] "Insufficient data for performance analysis" [] := by
    unfold performanceAnalyze performanceCore
    rw [h]
    simp
  refine ⟨⟨?_, ?_, ?_⟩, ⟨?_, ?_, ?_⟩, ⟨?_, ?_, ?_⟩, ?_, ?_⟩
  · rw [hcorr]
    rfl
  · rw [hcorr]
    intro f hf
    rcases List.mem_singleton.mp hf with rfl
    rfl
  · rw [hcorr]
    decide
  · rw [hfuel]
    rfl
  · rw [hfuel]
    intro f hf
    rcases List.mem_singleton.mp hf with rfl
    rfl
  · rw [hfuel]
    decide
  · rw [hperf]
    rfl
  · rw [hperf]
    intro f hf
    rcases List.mem_singleton.mp hf with rfl
    rfl
  · rw [hperf]
    decide
  · unfold faultsAnalyze faultsCore
    rw [h]
    simp
  · unfold faultsAnalyze faultsCore
    exact faultSummary_ne_empty _

/-- Claim C1 (witness): the amended statement instantiated at the empty
session. -/
theorem claim_C1_witness :
    ((correlatorAnalyze emptySession).findings.length = 1 ∧
      (∀ f ∈ (correlatorAnalyze emptySession).findings, f.severity = "info") ∧
      (correlatorAnalyze emptySession).summary ≠ "") ∧
    ((fuelAnalyze emptySession).findings.length = 1 ∧
      (∀ f ∈ (fuelAnalyze emptySession).findings, f.severity = "info") ∧
      (fuelAnalyze emptySession).summary ≠ "") ∧
    ((performanceAnalyze emptySession).findings.length = 1 ∧
      (∀ f ∈ (performanceAnalyze emptySession).findings, f.severity = "info") ∧
      (performanceAnalyze emptySession).summary ≠ "") ∧
    ((faultsAnalyze emptySession).findings =
      (match emptySession.dtc_result with
       | some d => analyzeDtcs d
       | none => []) ∧
      (faultsAnalyze emptySession).summary ≠ "") :=
  claim_C1_zero_sample_sessions emptySession rfl

/-! ## Claim C9: determinism and field-dependence -/

/-- Claim C9: every analyzer is a pure function of the session's samples and
trouble-code read: two sessions agreeing on `pid_samples` and `dtc_result`
(whatever their identifiers, notes, protocol or tags) receive identical
findings, summaries and metrics from all four analyzers.  The embedding is a
total function, which also captures that `analyze` performs no I/O and never
raises. -/
theorem claim_C9_determinism (s1 s2 : DiagnosticSession)
    (hp : s1.pid_samples = s2.pid_samples) (hd : s1.dtc_result = s2.dtc_result) :
    ((correlatorAnalyze s1).findings = (correlatorAnalyze s2).findings ∧
      (correlatorAnalyze s1).summary = (correlatorAnalyze s2).summary ∧
      (correlatorAnalyze s1).metrics = (correlatorAnalyze s2).metrics) ∧
    ((faultsAnalyze s1).findings = (faultsAnalyze s2).findings ∧
      (faultsAnalyze s1).summary = (faultsAnalyze s2).summary ∧
      (faultsAnalyze s1).metrics = (faultsAnalyze s2).metrics) ∧
    ((fuelAnalyze s1).findings = (fuelAnalyze s2).findings ∧
      (fuelAnalyze s1).summary = (fuelAnalyze s2).summary ∧
      (fuelAnalyze s1).metrics = (fuelAnalyze s2).metrics) ∧
    ((performanceAnalyze s1).findings = (performanceAnalyze s2).findings ∧
      (performanceAnalyze s1).summary = (performanceAnalyze s2).summary ∧
      (performanceAnalyze s1).metrics = (performanceAnalyze s2).metrics) := by
  have hc : correlatorAnalyze s1 = correlatorAnalyze s2 := by
    unfold correlatorAnalyze
    rw [hp]
  have hf : faultsAnalyze s1 = faultsAnalyze s2 := by
    unfold faultsAnalyze
    rw [hp, hd]
  have hu : fuelAnalyze s1 = fuelAnalyze s2 := by
    unfold fuelAnalyze
    rw [hp]
  have he : performanceAnalyze s1 = performanceAnalyze s2 := by
    unfold performanceAnalyze
    rw [hp, hd]
  exact ⟨⟨congrArg _ hc, congrArg _ hc, congrArg _ hc⟩,
    ⟨congrArg _ hf, congrArg _ hf, congrArg _ hf⟩,
    ⟨congrArg _ hu, congrArg _ hu, congrArg _ hu⟩,
    ⟨congrArg _ he, congrArg _ he, congrArg _ he⟩⟩

/-- Claim C9 (witness): two sessions with the same samples but different
identifiers, notes, protocol and tags receive identical results. -/
theorem claim_C9_witness :
    ((correlatorAnalyze sessC9a).findings = (correlatorAnalyze sessC9b).findings ∧
      (correlatorAnalyze sessC9a).summary = (correlatorAnalyze sessC9b).summary ∧
      (correlatorAnalyze sessC9a).metrics = (correlatorAnalyze sessC9b).metrics) ∧
    ((faultsAnalyze sessC9a).findings = (faultsAnalyze sessC9b).findings ∧
      (faultsAnalyze sessC9a).summary = (faultsAnalyze sessC9b).summary ∧
      (faultsAnalyze sessC9a).metrics = (faultsAnalyze sessC9b).metrics) ∧
    ((fuelAnalyze sessC9a).findings = (fuelAnalyze sessC9b).findings ∧
      (fuelAnalyze sessC9a).summary = (fuelAnalyze sessC9b).summary ∧
      (fuelAnalyze sessC9a).metrics = (fuelAnalyze sessC9b).metrics) ∧
    ((performanceAnalyze sessC9a).findings = (performanceAnalyze sessC9b).findings ∧
      (performanceAnalyze sessC9a).summary = (performanceAnalyze sessC9b).summary ∧
      (performanceAnalyze sessC9a).metrics = (performanceAnalyze sessC9b).metrics) :=
  claim_C9_determinism sessC9a sessC9b rfl rfl

/-! ## Claim C10: finding invariants -/

theorem shape_of_mem_expectedCorr {corrs : List ((String × String) × ℝ)}
    {f : AnalysisFinding} (h : f ∈ expectedCorrelationFindings corrs) :
    (∃ p q sev, (sev = "warning" ∨ sev = "info") ∧ f = lowCorrelationFinding p q sev) ∨
    f = negativeRpmSpeedFinding := by
  unfold expectedCorrelationFindings at h
  rcases List.mem_append.mp h with h2 | h2
  · rcases List.mem_filterMap.mp h2 with ⟨rule, hr, hf⟩
    rcases hl : lookupCorr corrs rule.1.1 rule.1.2 with _ | c
    · rw [hl] at hf
      simp at hf
    · rw [hl] at hf
      dsimp only at hf
      split at hf
      · refine Or.inl ⟨rule.1.1, rule.1.2, _, ?_, (Option.some.inj hf).symm⟩
        split
        · exact Or.inl rfl
        · exact Or.inr rfl
      · simp at hf
  · rcases hl : lookupCorr corrs "RPM" "SPEED" with _ | c
    · rw [hl] at h2
      simp at h2
    · rw [hl] at h2
      dsimp only at h2
      split at h2
      · exact Or.inr (List.mem_singleton.mp h2)
      · simp at h2

theorem shape_of_mem_anomaly {series : List (String × List ℚ)} {f : AnalysisFinding}
    (h : f ∈ anomalyFindings series) :
    ∃ pid, f = dataAnomaliesFinding pid ∨ f = suddenChangesFinding pid := by
  unfold anomalyFindings at h
  rcases List.mem_flatMap.mp h with ⟨kv, hkv, hf⟩
  dsimp only at hf
  split at hf
  · simp at hf
  · split at hf
    · simp at hf
    · rcases List.mem_append.mp hf with h2 | h2
      · exact ⟨kv.1, Or.inl (mem_singleton_ite.mp h2).2⟩
      · exact ⟨kv.1, Or.inr (mem_singleton_ite.mp h2).2⟩

theorem shape_of_mem_trend {series : List (String × List ℚ)} {f : AnalysisFinding}
    (h : f ∈ trendFindings series) :
    ∃ pid sev, (sev = "info" ∨ sev = "warning") ∧ f = trendingFinding pid sev := by
  unfold trendFindings at h
  rcases List.mem_flatMap.mp h with ⟨kv, hkv, hf⟩
  dsimp only at hf
  split at hf
  · simp at hf
  · split at hf
    · simp at hf
    · split at hf
      · simp at hf
      · split at hf
        · refine ⟨kv.1, _, ?_, (List.mem_singleton.mp hf)⟩
          split
          · exact Or.inl rfl
          · exact Or.inr rfl
        · simp at hf

/-- Every FaultDetector finding has a known severity and a confidence in
[0, 1]. -/
theorem valid_of_mem_faults {s : DiagnosticSession} {f : AnalysisFinding}
    (h : f ∈ (faultsAnalyze s).findings) : validFinding f := by
  simp only [faultsAnalyze, faultsCore] at h
  rcases List.mem_append.mp h with hdtc | hpid
  · rcases hs : s.dtc_result with _ | d
    · rw [hs] at hdtc
      simp at hdtc
    · rw [hs] at hdtc
      rcases shape_of_mem_analyzeDtcs hdtc with ⟨codes, rfl⟩ | ⟨sys, codes, rfl⟩ | ⟨codes, rfl⟩
      · exact ⟨Or.inl rfl, by norm_num [criticalDtcFinding]⟩
      · exact ⟨Or.inr (Or.inl rfl), by norm_num [multiSystemFinding]⟩
      · exact ⟨Or.inr (Or.inl rfl), by norm_num [recurringFinding]⟩
  · rw [mem_ite_nil_else] at hpid
    rcases List.mem_append.mp hpid.2 with h4 | h4
    rotate_left
    · rcases shape_of_mem_symptom h4 with rfl | rfl
      · exact ⟨Or.inr (Or.inl rfl), by norm_num [vacuumLeakFinding]⟩
      · exact ⟨Or.inr (Or.inl rfl), by norm_num [injectorIssueFinding]⟩
    rcases List.mem_append.mp h4 with h5 | h5
    rotate_left
    · rcases shape_of_mem_o2 h5 with rfl | rfl | rfl
      · exact ⟨Or.inr (Or.inl rfl), by norm_num [o2NotSwitchingFinding]⟩
      · exact ⟨Or.inr (Or.inr rfl), by norm_num [o2RichFinding]⟩
      · exact ⟨Or.inr (Or.inr rfl), by norm_num [o2LeanFinding]⟩
    rcases List.mem_append.mp h5 with h6 | h6
    · rcases shape_of_mem_sensorAnomaly h6 with rfl | ⟨pid, rfl⟩
      · exact ⟨Or.inl rfl, by norm_num [coolantRisingFinding]⟩
      · exact ⟨Or.inr (Or.inl rfl), by norm_num [stuckSensorFinding]⟩
    · rcases shape_of_mem_fuelSystem h6 with rfl | rfl | rfl
      · exact ⟨Or.inr (Or.inl rfl), by norm_num [runningLeanFinding]⟩
      · exact ⟨Or.inr (Or.inl rfl), by norm_num [runningRichFinding]⟩
      · exact ⟨Or.inr (Or.inr rfl), by norm_num [erraticFuelTrimFinding]⟩

/-- Every FuelEconomyAnalyzer finding has a known severity and a confidence
in [0, 1]. -/
theorem valid_of_mem_fuel {s : DiagnosticSession} {f : AnalysisFinding}
    (h : f ∈ (fuelAnalyze s).findings) : validFinding f := by
  simp only [fuelAnalyze, fuelCore] at h
  split at h
  · rcases List.mem_singleton.mp h with rfl
    exact ⟨Or.inr (Or.inr rfl), by norm_num [noDataFinding]⟩
  · rcases List.mem_append.mp h with h4 | h4
    rotate_left
    · rw [mem_ite_nil] at h4
      rcases shape_of_mem_acceleration h4.2 with rfl | rfl
      · exact ⟨Or.inr (Or.inr rfl), by norm_num [aggressiveAccelFinding]⟩
      · exact ⟨Or.inr (Or.inr rfl), by norm_num [excessiveIdlingFinding]⟩
    rcases List.mem_append.mp h4 with h5 | h5
    rotate_left
    · rw [mem_ite_nil] at h5
      rcases shape_of_mem_drivingEff h5.2 with rfl
      exact ⟨Or.inr (Or.inr rfl), by norm_num [highRpmPatternFinding]⟩
    rcases List.mem_append.mp h5 with h6 | h6
    rotate_left
    · rw [mem_ite_nil] at h6
      rcases shape_of_mem_idleFuel h6.2 with rfl
      exact ⟨Or.inr (Or.inr rfl), by norm_num [highIdleFuelFinding]⟩
    rcases List.mem_append.mp h6 with h7 | h7
    · rw [mem_ite_nil] at h7
      rcases shape_of_mem_mpgPattern h7.2 with rfl | rfl
      · exact ⟨Or.inr (Or.inl rfl), by norm_num [poorEconomyFinding]⟩
      · exact ⟨Or.inr (Or.inr rfl), by norm_num [inconsistentEconomyFinding]⟩
    · rw [mem_ite_nil] at h7
      rcases shape_of_mem_mafPattern h7.2 with rfl | rfl
      · exact ⟨Or.inr (Or.inr rfl), by norm_num [highAirflowFinding]⟩
      · exact ⟨Or.inr (Or.inl rfl), by norm_num [highIdleAirflowFinding]⟩

/-- Every PerformanceAnalyzer finding has a known severity and a confidence
in [0, 1]. -/
theorem valid_of_mem_performance {s : DiagnosticSession} {f : AnalysisFinding}
    (h : f ∈ (performanceAnalyze s).findings) : validFinding f := by
  simp only [performanceAnalyze, performanceCore] at h
  split at h
  · rcases List.mem_singleton.mp h with rfl
    exact ⟨Or.inr (Or.inr rfl), by norm_num [noDataFinding]⟩
  · rcases List.mem_append.mp h with h4 | h4
    rotate_left
    · rcases hs : s.dtc_result with _ | d
      · rw [hs] at h4
        simp at h4
      · rw [hs] at h4
        rcases shape_of_mem_misfire h4 with ⟨codes, rfl⟩
        exact ⟨Or.inl rfl, by norm_num [misfireCodesFinding]⟩
    rcases List.mem_append.mp h4 with h5 | h5
    rotate_left
    · rw [mem_ite_nil] at h5
      rcases shape_of_mem_coolantTemp h5.2 with rfl | rfl | rfl
      · exact ⟨Or.inl rfl, by norm_num [elevatedCoolantFinding]⟩
      · exact ⟨Or.inr (Or.inl rfl), by norm_num [warmCoolantFinding]⟩
      · exact ⟨Or.inr (Or.inl rfl), by norm_num [notReachingTempFinding]⟩
    rcases List.mem_append.mp h5 with h6 | h6
    rotate_left
    · rw [mem_ite_nil] at h6
      rcases shape_of_mem_throttleResponse h6.2 with rfl
      exact ⟨Or.inr (Or.inl rfl), by norm_num [throttleLagFinding]⟩
    rcases List.mem_append.mp h6 with h7 | h7
    · rw [mem_ite_nil] at h7
      rcases shape_of_mem_rpmStability h7.2 with rfl | rfl
      · exact ⟨Or.inr (Or.inl rfl), by norm_num [roughIdleFinding]⟩
      · exact ⟨Or.inr (Or.inl rfl), by norm_num [rpmFluctuationsFinding]⟩
    · rw [mem_ite_nil] at h7
      rcases shape_of_mem_loadPattern h7.2 with rfl | rfl
      · exact ⟨Or.inr (Or.inr rfl), by norm_num [highIdleLoadFinding]⟩
      · exact ⟨Or.inr (Or.inr rfl), by norm_num [loadFluctuationsFinding]⟩

/-- Every Correlator finding has a known severity and a confidence in
[0, 1]. -/
theorem valid_of_mem_correlator {s : DiagnosticSession} {f : AnalysisFinding}
    (h : f ∈ (correlatorAnalyze s).findings) : validFinding f := by
  simp only [correlatorAnalyze, correlatorCore] at h
  split at h
  · rcases List.mem_singleton.mp h with rfl
    exact ⟨Or.inr (Or.inr rfl), by norm_num [insufficientDataFinding]⟩
  · split at h
    · rcases List.mem_singleton.mp h with rfl
      exact ⟨Or.inr (Or.inr rfl), by norm_num [insufficientPidsFinding]⟩
    · rcases List.mem_append.mp h with h4 | h4
      rotate_left
      · rcases shape_of_mem_trend h4 with ⟨pid, sev, hsev, rfl⟩
        rcases hsev with rfl | rfl
        · exact ⟨Or.inr (Or.inr rfl), by norm_num [trendingFinding]⟩
        · exact ⟨Or.inr (Or.inl rfl), by norm_num [trendingFinding]⟩
      rcases List.mem_append.mp h4 with h5 | h5
      · rcases shape_of_mem_expectedCorr h5 with ⟨p, q, sev, hsev, rfl⟩ | rfl
        · rcases hsev with rfl | rfl
          · exact ⟨Or.inr (Or.inl rfl), by norm_num [lowCorrelationFinding]⟩
          · exact ⟨Or.inr (Or.inr rfl), by norm_num [lowCorrelationFinding]⟩
        · exact ⟨Or.inr (Or.inr rfl), by norm_num [negativeRpmSpeedFinding]⟩
      · rcases shape_of_mem_anomaly h5 with ⟨pid, rfl | rfl⟩
        · exact ⟨Or.inr (Or.inr rfl), by norm_num [dataAnomaliesFinding]⟩
        · exact ⟨Or.inr (Or.inl rfl), by norm_num [suddenChangesFinding]⟩

/-- Claim C10: every finding emitted by any of the four analyzers, for every
session, has severity in the set critical/warning/info and a confidence in
the closed interval [0, 1] (the related-PID, related-DTC and recommendation
lists are total `List` values by construction). -/
theorem claim_C10_finding_invariants (s : DiagnosticSession) (f : AnalysisFinding)
    (h : f ∈ (correlatorAnalyze s).findings ∨ f ∈ (faultsAnalyze s).findings ∨
      f ∈ (fuelAnalyze s).findings ∨ f ∈ (performanceAnalyze s).findings) :
    (f.severity = "critical" ∨ f.severity = "warning" ∨ f.severity = "info") ∧
    0 ≤ f.confidence ∧ f.confidence ≤ 1 := by
  rcases h with h | h | h | h
  · exact valid_of_mem_correlator h
  · exact valid_of_mem_faults h
  · exact valid_of_mem_fuel h
  · exact valid_of_mem_performance h

/-- Claim C10 (witness): the invariant instantiated on the "No Data" finding
of the fuel analyzer on the empty session. -/
theorem claim_C10_witness :
    (noDataFinding.severity = "critical" ∨ noDataFinding.severity = "warning" ∨
      noDataFinding.severity = "info") ∧
    0 ≤ noDataFinding.confidence ∧ noDataFinding.confidence ≤ 1 :=
  claim_C10_finding_invariants emptySession noDataFinding
    (Or.inr (Or.inr (Or.inl (by simp [fuelAnalyze, fuelCore, emptySession]))))

/-! ## Claim C6: Pearson correlation -/

theorem list_map_sum_eq_range (l : List ℚ) (g : ℚ → ℚ) :
    (l.map g).sum = ∑ i in Finset.range l.length, g (l.getD i 0) := by
  induction l with
  | nil => simp
  | cons x t ih =>
    rw [List.map_cons, List.sum_cons, ih, List.length_cons, Finset.sum_range_succ']
    simp [List.getD_cons_succ, List.getD_cons_zero]
    ring

theorem zipWith_sum_eq_range (g : ℚ → ℚ → ℚ) (x y : List ℚ) (h : x.length = y.length) :
    (List.zipWith g x y).sum = ∑ i in Finset.range x.length, g (x.getD i 0) (y.getD i 0) := by
  induction x generalizing y with
  | nil => simp
  | cons a t ih =>
    rcases y with _ | ⟨b, u⟩
    · simp at h
    · rw [List.zipWith_cons_cons, List.sum_cons, ih u (by simpa using h),
        List.length_cons, Finset.sum_range_succ']
      simp [List.getD_cons_succ, List.getD_cons_zero]
      ring

theorem sqDevSum_nonneg (l : List ℚ) : 0 ≤ sqDevSum l := by
  rw [sqDevSum]
  apply List.sum_nonneg
  intro a ha
  rcases List.mem_map.mp ha with ⟨v, hv, rfl⟩
  positivity

theorem covSum_comm (x y : List ℚ) : covSum x y = covSum y x := by
  rw [covSum, covSum, List.zipWith_comm]
  have hg : (fun b a => (a - mean x) * (b - mean y)) =
      (fun a b => (a - mean y) * (b - mean x)) := by
    funext a b
    ring
  rw [hg]

/-- Cauchy-Schwarz for the Pearson numerator. -/
theorem covSum_sq_le (x y : List ℚ) (h : x.length = y.length) :
    covSum x y ^ 2 ≤ sqDevSum x * sqDevSum y := by
  rw [covSum, zipWith_sum_eq_range _ _ _ h, sqDevSum, sqDevSum,
    list_map_sum_eq_range, list_map_sum_eq_range, ← h]
  exact Finset.sum_mul_sq_le_sq_mul_sq _ _ _

/-- Symmetry of `_pearson_correlation`. -/
theorem pearson_symm (x y : List ℚ) :
    pearson_correlation x y = pearson_correlation y x := by
  unfold pearson_correlation
  by_cases hl : x.length = y.length
  · by_cases h2 : x.length < 2
    · rw [if_pos (Or.inr h2), if_pos (Or.inr (hl ▸ h2))]
    · have gx : ¬ (x.length ≠ y.length ∨ x.length < 2) :=
        fun hor => hor.elim (fun hne => hne hl) h2
      have gy : ¬ (y.length ≠ x.length ∨ y.length < 2) :=
        fun hor => hor.elim (fun hne => hne hl.symm) (fun hy => h2 (hl.symm ▸ hy))
      rw [if_neg gx, if_neg gy]
      by_cases h3 : sqDevSum x = 0 ∨ sqDevSum y = 0
      · rw [if_pos h3, if_pos h3.symm]
      · rw [if_neg h3, if_neg (fun hor => h3 hor.symm)]
        rw [covSum_comm, mul_comm]
  · rw [if_pos (Or.inl hl), if_pos (Or.inl (fun e => hl e.symm))]

/-- `_pearson_correlation` returns `None` whenever either series has zero
squared deviation (zero sample variance, i.e. a constant series). -/
theorem pearson_none_of_const (x y : List ℚ) (h : x.length = y.length)
    (h0 : sqDevSum x = 0 ∨ sqDevSum y = 0) : pearson_correlation x y = none := by
  unfold pearson_correlation
  by_cases h2 : x.length < 2
  · rw [if_pos (Or.inr h2)]
  · rw [if_neg (fun hor => hor.elim (fun hne => hne h) h2), if_pos h0]

/-- Every value `_pearson_correlation` returns lies in [-1, 1]. -/
theorem pearson_bounds (x y : List ℚ) (c : ℝ)
    (h : pearson_correlation x y = some c) : -1 ≤ c ∧ c ≤ 1 := by
  unfold pearson_correlation at h
  split at h
  · exact absurd h (by simp)
  · split at h
    · exact absurd h (by simp)
    · rename_i hg1 hg2
      push_neg at hg1 hg2
      have hlen : x.length = y.length := hg1.1
      have hx : 0 < sqDevSum x :=
        lt_of_le_of_ne (sqDevSum_nonneg x) (Ne.symm hg2.1)
      have hy : 0 < sqDevSum y :=
        lt_of_le_of_ne (sqDevSum_nonneg y) (Ne.symm hg2.2)
      have hcs : (covSum x y : ℝ) ^ 2 ≤ ((sqDevSum x : ℚ) : ℝ) * ((sqDevSum y : ℚ) : ℝ) := by
        exact_mod_cast covSum_sq_le x y hlen
      have hxr : (0 : ℝ) < ((sqDevSum x : ℚ) : ℝ) := by exact_mod_cast hx
      have hyr : (0 : ℝ) < ((sqDevSum y : ℚ) : ℝ) := by exact_mod_cast hy
      have hdx : (0 : ℝ) < Real.sqrt ((sqDevSum x : ℚ) : ℝ) := Real.sqrt_pos.mpr hxr
      have hdy : (0 : ℝ) < Real.sqrt ((sqDevSum y : ℚ) : ℝ) := Real.sqrt_pos.mpr hyr
      have hc : c = (covSum x y : ℝ) /
          (Real.sqrt ((sqDevSum x : ℚ) : ℝ) * Real.sqrt ((sqDevSum y : ℚ) : ℝ)) :=
        (Option.some.inj h).symm
      have hsq : c ^ 2 ≤ 1 := by
        rw [hc, div_pow, mul_pow, Real.sq_sqrt hxr.le, Real.sq_sqrt hyr.le]
        rw [div_le_one (by positivity)]
        exact hcs
      have habs : |c| ≤ 1 := abs_le_of_sq_le_sq (by rwa [one_pow]) (by norm_num)
      exact abs_le.mp habs

/-- Claim C6: the Pearson correlation is symmetric, every value it returns
lies in [-1, 1], and it returns the omitted state (`none`) whenever either
equal-length input series has zero sample variance. -/
theorem claim_C6_pearson_properties :
    (∀ x y : List ℚ, pearson_correlation x y = pearson_correlation y x) ∧
    (∀ (x y : List ℚ) (c : ℝ), pearson_correlation x y = some c → -1 ≤ c ∧ c ≤ 1) ∧
    (∀ x y : List ℚ, x.length = y.length → sqDevSum x = 0 ∨ sqDevSum y = 0 →
      pearson_correlation x y = none) :=
  ⟨pearson_symm, pearson_bounds, pearson_none_of_const⟩

theorem pearson_pm_one : pearson_correlation [-1, 1] [-1, 1] = some 1 := by
  have h2 : sqDevSum [-1, 1] = 2 := by
    norm_num [sqDevSum, mean]
  have hcov : covSum ([-1, 1] : List ℚ) [-1, 1] = 2 := by
    norm_num [covSum, mean]
  unfold pearson_correlation
  rw [if_neg (by norm_num), if_neg (by rw [h2]; norm_num), h2, hcov]
  congr 1
  have hs : Real.sqrt ((2 : ℚ) : ℝ) * Real.sqrt ((2 : ℚ) : ℝ) = ((2 : ℚ) : ℝ) :=
    Real.mul_self_sqrt (by norm_num)
  rw [hs]
  norm_num

/-- Claim C6 (witness): the bound applied to the exact correlation 1 of a
series with itself, and the omitted state on a constant series. -/
theorem claim_C6_witness :
    (-1 ≤ (1 : ℝ) ∧ (1 : ℝ) ≤ 1) ∧
    pearson_correlation [1, 1] [2, 3] = none :=
  ⟨claim_C6_pearson_properties.2.1 [-1, 1] [-1, 1] 1 pearson_pm_one,
    claim_C6_pearson_properties.2.2 [1, 1] [2, 3] rfl
      (Or.inl (by norm_num [sqDevSum, mean]))⟩

/-! ## Claim C8: negative RPM-speed correlation -/

theorem mem_of_lookup_some {α β : Type} [BEq α] [LawfulBEq α] {m : List (α × β)}
    {k : α} {v : β} (h : List.lookup k m = some v) : (k, v) ∈ m := by
  rcases List.lookup_eq_some_iff.mp h with ⟨l1, l2, rfl, hx⟩
  simp

theorem mem_pairsOf_elim {α : Type} {l : List α} {p q : α}
    (h : (p, q) ∈ pairsOf l) : p ∈ l ∧ q ∈ l := by
  induction l with
  | nil => simp [pairsOf] at h
  | cons x xs ih =>
    rw [pairsOf] at h
    rcases List.mem_append.mp h with h2 | h2
    · rcases List.mem_map.mp h2 with ⟨y, hy, he⟩
      rcases Prod.mk.injEq .. ▸ he with ⟨rfl, rfl⟩
      exact ⟨List.mem_cons_self _ _, List.mem_cons_of_mem _ hy⟩
    · exact ⟨List.mem_cons_of_mem _ (ih h2).1, List.mem_cons_of_mem _ (ih h2).2⟩

/-- On a duplicate-free list, at most one orientation of a pair occurs. -/
theorem pairsOf_asym {α : Type} {l : List α} (hnd : l.Nodup) {p q : α}
    (h1 : (p, q) ∈ pairsOf l) (h2 : (q, p) ∈ pairsOf l) : False := by
  induction l with
  | nil => simp [pairsOf] at h1
  | cons x xs ih =>
    rw [pairsOf] at h1 h2
    have hx : x ∉ xs := (List.nodup_cons.mp hnd).1
    have hxs : xs.Nodup := (List.nodup_cons.mp hnd).2
    rcases List.mem_append.mp h1 with h1a | h1a
    · rcases List.mem_map.mp h1a with ⟨y, hy, he⟩
      rcases Prod.mk.injEq .. ▸ he with ⟨rfl, rfl⟩
      rcases List.mem_append.mp h2 with h2a | h2a
      · rcases List.mem_map.mp h2a with ⟨z, hz, he2⟩
        rcases Prod.mk.injEq .. ▸ he2 with ⟨rfl, rfl⟩
        exact hx hy
      · exact hx (mem_pairsOf_elim h2a).2
    · rcases List.mem_append.mp h2 with h2a | h2a
      · rcases List.mem_map.mp h2a with ⟨z, hz, he2⟩
        rcases Prod.mk.injEq .. ▸ he2 with ⟨rfl, rfl⟩
        exact hx (mem_pairsOf_elim h1a).2
      · exact ih hxs h1a h2a

theorem nodup_insertKey {acc : List String} {k : String} (h : acc.Nodup) :
    (insertKey acc k).Nodup := by
  unfold insertKey
  split
  · exact h
  · rename_i hk
    simpa [List.nodup_append] using ⟨h, hk⟩

theorem nodup_values_fold {vals : List (String × ℚ)} {acc : List String}
    (h : acc.Nodup) : (vals.foldl (fun ac kv => insertKey ac kv.1) acc).Nodup := by
  induction vals generalizing acc with
  | nil => exact h
  | cons kv t ih => exact ih (nodup_insertKey h)

theorem nodup_sampleKeys (samples : List PIDSample) : (sampleKeys samples).Nodup := by
  rw [sampleKeys]
  have main : ∀ (ss : List PIDSample) (acc : List String), acc.Nodup →
      (ss.foldl (fun acc s => s.values.foldl (fun ac kv => insertKey ac kv.1) acc)
        acc).Nodup := by
    intro ss
    induction ss with
    | nil => exact fun acc h => h
    | cons s t ih => exact fun acc h => ih _ (nodup_values_fold h)
  exact main samples [] List.nodup_nil

theorem filterMap_keys_eq (samples : List PIDSample) (ks : List String) :
    ((ks.filterMap (fun pid =>
        let vals := extractValues samples pid
        if 10 ≤ vals.length then some (pid, vals) else none)).map Prod.fst) =
      ks.filter (fun pid => decide (10 ≤ (extractValues samples pid).length)) := by
  induction ks with
  | nil => rfl
  | cons k t ih =>
    rw [List.filterMap_cons]
    dsimp only
    by_cases hk : 10 ≤ (extractValues samples k).length
    · rw [if_pos hk, List.map_cons, ih, List.filter_cons, if_pos (by simpa using hk)]
    · rw [if_neg hk, ih, List.filter_cons, if_neg (by simpa using hk)]

/-- The keys of the retained-series table, in order. -/
theorem extractSeries_keys (samples : List PIDSample) :
    (extractSeries samples).map Prod.fst =
      (sampleKeys samples).filter
        (fun pid => decide (10 ≤ (extractValues samples pid).length)) := by
  rw [extractSeries]
  exact filterMap_keys_eq samples (sampleKeys samples)

theorem nodup_extractSeries_keys (samples : List PIDSample) :
    ((extractSeries samples).map Prod.fst).Nodup := by
  rw [extractSeries_keys]
  exact (nodup_sampleKeys samples).filter _

/-- Membership in the correlation table determines an ordered pair of the
retained keys. -/
theorem mem_calcCorrs_key {series : List (String × List ℚ)} {a b : String} {c : ℝ}
    (h : ((a, b), c) ∈ calculateCorrelations series) :
    (a, b) ∈ pairsOf (series.map Prod.fst) ∧
    ¬ (min (seriesGet series a).length (seriesGet series b).length < 10) := by
  unfold calculateCorrelations at h
  rcases List.mem_filterMap.mp h with ⟨pq, hpq, hf⟩
  dsimp only at hf
  split at hf
  · simp at hf
  · rcases Option.map_eq_some'.mp hf with ⟨corr, hp, he⟩
    rcases Prod.mk.injEq .. ▸ he with ⟨hkey, hval⟩
    rcases Prod.mk.injEq .. ▸ hkey with ⟨h1, h2⟩
    rename_i hmin
    subst h1
    subst h2
    exact ⟨hpq, hmin⟩

/-- For a correlation table built from a duplicate-free series list, the
two-order lookup is symmetric. -/
theorem lookupCorr_comm {series : List (String × List ℚ)}
    (hnd : (series.map Prod.fst).Nodup) (a b : String) :
    lookupCorr (calculateCorrelations series) a b =
      lookupCorr (calculateCorrelations series) b a := by
  unfold lookupCorr
  rcases h1 : List.lookup (a, b) (calculateCorrelations series) with _ | c1 <;>
    rcases h2 : List.lookup (b, a) (calculateCorrelations series) with _ | c2
  · rfl
  · rfl
  · rfl
  · exfalso
    exact pairsOf_asym hnd (mem_calcCorrs_key (mem_of_lookup_some h1)).1
      (mem_calcCorrs_key (mem_of_lookup_some h2)).1

theorem two_le_length_of_two_mem {α : Type} {l : List α} {a b : α}
    (ha : a ∈ l) (hb : b ∈ l) (hne : a ≠ b) : 2 ≤ l.length := by
  rcases l with _ | ⟨x, t⟩
  · simp at ha
  · rcases t with _ | ⟨y, u⟩
    · simp at ha hb
      exact absurd (ha.trans hb.symm) hne
    · simp only [List.length_cons]
      omega

/-- Membership of an entry in the retained-series table pins its value and
length. -/
theorem mem_extractSeries_elim {samples : List PIDSample} {p : String} {v : List ℚ}
    (h : (p, v) ∈ extractSeries samples) :
    v = extractValues samples p ∧ 10 ≤ v.length := by
  unfold extractSeries at h
  rcases List.mem_filterMap.mp h with ⟨pid, hpid, hf⟩
  dsimp only at hf
  split at hf
  · rcases Prod.mk.injEq .. ▸ Option.some.inj hf with ⟨rfl, rfl⟩
    rename_i hlen
    exact ⟨rfl, hlen⟩
  · simp at hf

/-- A correlation-table entry forces both keys into the retained-key list
and at least 10 samples in the session. -/
theorem corr_entry_facts {samples : List PIDSample} {a b : String} {c : ℝ}
    (h : ((a, b), c) ∈ calculateCorrelations (extractSeries samples)) :
    a ∈ (extractSeries samples).map Prod.fst ∧
    b ∈ (extractSeries samples).map Prod.fst ∧
    10 ≤ samples.length := by
  obtain ⟨hp, hmin⟩ := mem_calcCorrs_key h
  have hab := mem_pairsOf_elim hp
  push_neg at hmin
  have h10 : 10 ≤ (seriesGet (extractSeries samples) a).length := (le_min_iff.mp hmin).1
  rcases hl : List.lookup a (extractSeries samples) with _ | v
  · rw [seriesGet, hl] at h10
    simp at h10
  · have hfacts := mem_extractSeries_elim (mem_of_lookup_some hl)
    have hle : (extractValues samples a).length ≤ samples.length :=
      List.length_filterMap_le _ _
    rw [seriesGet, hl, Option.getD_some, hfacts.1] at h10
    exact ⟨hab.1, hab.2, le_trans h10 hle⟩

/-- Claim C8: whenever the RPM/SPEED pair is present in the Correlator's
computed correlation map with a coefficient below -0.3, `analyze` emits both
the expected-correlation finding for the SPEED-RPM pair with severity
"warning" (the coefficient being below the 0.3 minimum and negative) and,
independently, an info-severity "Negative RPM-Speed Correlation" finding. -/
theorem claim_C8_negative_rpm_speed (s : DiagnosticSession) (c : ℝ)
    (h : lookupCorr (calculateCorrelations (extractSeries s.pid_samples)) "RPM" "SPEED" =
      some c)
    (hc : c < -0.3) :
    (∃ f ∈ (correlatorAnalyze s).findings,
        f.title = "Unexpected Low Correlation: SPEED-RPM" ∧ f.severity = "warning") ∧
    (∃ f ∈ (correlatorAnalyze s).findings,
        f.title = "Negative RPM-Speed Correlation" ∧ f.severity = "info") := by
  have hmem : (("RPM", "SPEED"), c) ∈ calculateCorrelations (extractSeries s.pid_samples) ∨
      (("SPEED", "RPM"), c) ∈ calculateCorrelations (extractSeries s.pid_samples) := by
    have h2 := h
    unfold lookupCorr at h2
    split at h2
    · rename_i c1 heq
      exact Or.inl (Option.some.inj h2 ▸ mem_of_lookup_some heq)
    · exact Or.inr (mem_of_lookup_some h2)
  have hfacts : "RPM" ∈ (extractSeries s.pid_samples).map Prod.fst ∧
      "SPEED" ∈ (extractSeries s.pid_samples).map Prod.fst ∧
      10 ≤ s.pid_samples.length := by
    rcases hmem with hm | hm
    · exact corr_entry_facts hm
    · obtain ⟨h1, h2, h3⟩ := corr_entry_facts hm
      exact ⟨h2, h1, h3⟩
  obtain ⟨hrm, hsm, hn⟩ := hfacts
  have h2len : 2 ≤ (extractSeries s.pid_samples).length := by
    have h2m := two_le_length_of_two_mem hrm hsm (by decide)
    rwa [List.length_map] at h2m
  have hg1 : ¬ (s.pid_samples.length < 10) := by omega
  have hg2 : ¬ ((extractSeries s.pid_samples).length < 2) := by omega
  have hswap : lookupCorr (calculateCorrelations (extractSeries s.pid_samples))
      "SPEED" "RPM" = some c :=
    (lookupCorr_comm (nodup_extractSeries_keys s.pid_samples) "SPEED" "RPM").trans h
  have hc0 : c < 0 := by
    have hx : (-0.3 : ℝ) < 0 := by norm_num
    linarith
  have hc3 : c < ((0.3 : ℚ) : ℝ) := by
    have h03 : ((0.3 : ℚ) : ℝ) = 0.3 := by norm_num
    have hx : (-0.3 : ℝ) < 0.3 := by norm_num
    rw [h03]
    linarith
  have hf1 : lowCorrelationFinding "SPEED" "RPM" "warning" ∈
      expectedCorrelationFindings (calculateCorrelations (extractSeries s.pid_samples)) := by
    unfold expectedCorrelationFindings
    refine List.mem_append.mpr (Or.inl ?_)
    refine List.mem_filterMap.mpr ⟨(("SPEED", "RPM"), 0.3), by simp [expectedPositive], ?_⟩
    dsimp only
    simp only [hswap]
    rw [if_pos hc3, if_pos hc0]
  have hf2 : negativeRpmSpeedFinding ∈
      expectedCorrelationFindings (calculateCorrelations (extractSeries s.pid_samples)) := by
    unfold expectedCorrelationFindings
    refine List.mem_append.mpr (Or.inr ?_)
    simp only [h]
    rw [if_pos hc]
    exact List.mem_singleton.mpr rfl
  have hmain : ∀ f, f ∈ expectedCorrelationFindings
      (calculateCorrelations (extractSeries s.pid_samples)) →
      f ∈ (correlatorAnalyze s).findings := by
    intro f hf
    simp only [correlatorAnalyze, correlatorCore]
    rw [if_neg hg1, if_neg hg2]
    exact List.mem_append.mpr (Or.inl (List.mem_append.mpr (Or.inl hf)))
  exact ⟨⟨lowCorrelationFinding "SPEED" "RPM" "warning", hmain _ hf1, by decide, rfl⟩,
    ⟨negativeRpmSpeedFinding, hmain _ hf2, rfl, rfl⟩⟩

/-- Witness for claim C8 at the concrete session `sessC8` (RPM rising 1..10
against speed falling 10..1, a perfect anticorrelation of -1). -/
theorem claim_C8_witness :
    (∃ f ∈ (correlatorAnalyze sessC8).findings,
        f.title = "Unexpected Low Correlation: SPEED-RPM" ∧ f.severity = "warning") ∧
    (∃ f ∈ (correlatorAnalyze sessC8).findings,
        f.title = "Negative RPM-Speed Correlation" ∧ f.severity = "info") := by
  have hser : extractSeries sessC8.pid_samples = [("RPM", rlistC8), ("SPEED", slistC8)] := by
    rfl
  have hRS : sqDevSum rlistC8 = 165 / 2 := by
    norm_num [sqDevSum, mean, rlistC8]
  have hSS : sqDevSum slistC8 = 165 / 2 := by
    norm_num [sqDevSum, mean, slistC8]
  have hCV : covSum rlistC8 slistC8 = -(165 / 2) := by
    norm_num [covSum, mean, rlistC8, slistC8]
  have g1 : ¬ (rlistC8.length ≠ slistC8.length ∨ rlistC8.length < 2) := by decide
  have g2 : ¬ (sqDevSum rlistC8 = 0 ∨ sqDevSum slistC8 = 0) := by
    rw [hRS, hSS]
    norm_num
  have hsq : Real.sqrt ((165 / 2 : ℚ) : ℝ) * Real.sqrt ((165 / 2 : ℚ) : ℝ) =
      ((165 / 2 : ℚ) : ℝ) :=
    Real.mul_self_sqrt (by positivity)
  have hpear : pearson_correlation rlistC8 slistC8 = some (-1) := by
    unfold pearson_correlation
    rw [if_neg g1, if_neg g2, hRS, hSS, hCV, hsq]
    simp only [Option.some.injEq]
    push_cast
    norm_num
  have hcalc : calculateCorrelations [("RPM", rlistC8), ("SPEED", slistC8)] =
      [(("RPM", "SPEED"), -1)] := by
    unfold calculateCorrelations
    rw [show List.map (fun kv => kv.1) [("RPM", rlistC8), ("SPEED", slistC8)] =
      ["RPM", "SPEED"] from rfl]
    rw [show pairsOf ["RPM", "SPEED"] = [("RPM", "SPEED")] from rfl]
    rw [List.filterMap_cons]
    dsimp only
    rw [show seriesGet [("RPM", rlistC8), ("SPEED", slistC8)] "RPM" = rlistC8 from rfl]
    rw [show seriesGet [("RPM", rlistC8), ("SPEED", slistC8)] "SPEED" = slistC8 from rfl]
    rw [show min rlistC8.length slistC8.length = 10 from rfl]
    have g3 : ¬ (10 < 10) := by norm_num
    rw [if_neg g3]
    rw [show rlistC8.take 10 = rlistC8 from rfl, show slistC8.take 10 = slistC8 from rfl]
    rw [hpear]
    rfl
  have hlook : lookupCorr (calculateCorrelations (extractSeries sessC8.pid_samples))
      "RPM" "SPEED" = some (-1) := by
    rw [hser, hcalc]
    rfl
  exact claim_C8_negative_rpm_speed sessC8 (-1) hlook (by norm_num)

/-! ## Claim C5: the MPG series -/

/-- Claim C5: the source's MPG series coincides, for all inputs, with the
spec-worded series (aligned truncation; an index is kept iff speed ≥ 5,
MAF ≥ 0.5 and the computed mpg lies in (1, 100)); and at speed 100 km/h,
MAF 20 g/s the formula gives ≈ 23.98 MPG (within 0.01). -/
theorem claim_C5_mpg_series :
    (∀ maf_values speed_values : List ℚ,
      calculate_mpg_series maf_values speed_values = mpgSeriesSpec maf_values speed_values) ∧
    |(100 : ℚ) * 0.621371 * 7.718 / 20 - 23.98| < 0.01 := by
  constructor
  · intro maf_values speed_values
    unfold calculate_mpg_series mpgSeriesSpec
    congr 1
    funext i
    by_cases h : speed_values.getD i 0 < 5 ∨ maf_values.getD i 0 < 0.5
    · rw [if_pos h, if_neg]
      push_neg
      intro h5 hm
      rcases h with h | h
      · exact absurd h5 (not_le.mpr h)
      · exact absurd hm (not_le.mpr h)
    · rw [if_neg h]
      push_neg at h
      by_cases h2 : 1 < speed_values.getD i 0 * 0.621371 * 7.718 / maf_values.getD i 0 ∧
          speed_values.getD i 0 * 0.621371 * 7.718 / maf_values.getD i 0 < 100
      · rw [if_pos h2, if_pos ⟨h.1, h.2, h2.1, h2.2⟩]
      · rw [if_neg h2, if_neg]
        intro hc
        exact h2 ⟨hc.2.2.1, hc.2.2.2⟩
  · rw [abs_lt]
    constructor <;> norm_num

end ObdToolkit
